import Mathlib

/-!
# Metadata handles of oneseismic-api: a shallow embedding

Embedding of `src/internal/core/metadatahandle.cpp` (with the declarations of
`metadatahandle.hpp`).

Conventions of the embedding

* `float` coordinates are exact rationals (`ℚ`): rounding and the finite range
  of `float` are not modelled.
* `int` and `size_t` values are mathematical integers (`Int`, `Nat`); `(int) x`
  on a float is truncation toward zero (`float_to_int`).
* The one float operation without a rational counterpart, division by zero, is
  kept explicit: the quotient is non-finite and its conversion to `int` is not
  defined by the language, so the value that conversion produces is a
  parameter of the model (`Externals.nonfinite_to_int`).
* A C++ function that may throw returns `Except Exception _`.
* A `for` loop over `0 .. n - 1` is a recursion on the number of iterations
  left or a left fold over `List.range n`; the buffer written through a
  pointer is a map from element index to value, passed in and returned.
-/

namespace Oneseismic

/-! ## Exceptions -/

/-- The two exception types thrown by the translation unit:
`std::runtime_error` and `detail::bad_request`, each with its message. -/
inductive Exception where
  | runtime_error (what : String)
  | bad_request (what : String)
  deriving DecidableEq, Repr

/-- Conversion `(int) x` of a finite float: truncation toward zero. -/
def float_to_int (x : ℚ) : Int :=
  if 0 ≤ x then ⌊x⌋ else ⌈x⌉

/-! ## Axis and Direction -/

/-- Modelled from the spec: the class `Axis` of `axis.hpp`, which is not among
the sources. "Axis: {min, max, nsamples, name, unit, dimension_index}". The
fields are the arguments of the constructor in the order in which
`make_single_cube_axis` passes them; `nsamples` is the `int` of
`GetNumSamples()`. -/
structure Axis where
  min : ℚ
  max : ℚ
  nsamples : Int
  name : String
  unit : String
  dimension : Int
  deriving DecidableEq, Repr

/-- Modelled from the spec: `Axis::stepsize` of `axis.hpp`.
"stepsize = (max - min) / (nsamples - 1) when nsamples > 1". For
`nsamples = 1` the value given here (zero) has no meaning; the axes of a
constructed handle have at least two samples. -/
def Axis.stepsize (a : Axis) : ℚ :=
  (a.max - a.min) / ((a.nsamples - 1 : Int) : ℚ)

/-- Modelled from the spec: the class `Direction` of `direction.hpp`.
"a closed enumeration {inline, crossline, sample}". -/
inductive Direction where
  | inline
  | crossline
  | sample
  deriving DecidableEq, Repr

/-- Modelled from the spec: `Direction::is_iline` of `direction.hpp`. -/
def Direction.is_iline (d : Direction) : Bool := d = Direction.inline

/-- Modelled from the spec: `Direction::is_xline` of `direction.hpp`. -/
def Direction.is_xline (d : Direction) : Bool := d = Direction.crossline

/-- Modelled from the spec: `Direction::is_sample` of `direction.hpp`. -/
def Direction.is_sample (d : Direction) : Bool := d = Direction.sample

/-! ## The layout provider (OpenVDS) -/

/-- The part of `OpenVDS::VolumeDataAxisDescriptor` read by `make_single_cube_axis`. -/
structure VolumeDataAxisDescriptor where
  CoordinateMin : ℚ
  CoordinateMax : ℚ
  NumSamples : Int
  Name : String
  Unit : String

/-- The part of the interface `OpenVDS::VolumeDataLayout` used by the handles. -/
structure VolumeDataLayout where
  GetDimensionality : Int
  GetDimensionName : Int → String
  GetAxisDescriptor : Int → VolumeDataAxisDescriptor
  GetMetadataString : String → String → String

/-- `OpenVDS::Dimensionality_Max`, also the static member `Dimensionality_Max`
of every layout class. -/
def Dimensionality_Max : Nat := 6

/-- Modelled from the spec: the class `DoubleVolumeDataLayout` of
`volumedatalayout.hpp`, which is not among the sources: "a composite layout
view over two provider references" that "stores the per-dimension index
offsets needed to translate a combined-grid sample index into each source
cube's own index space". The fields are the member functions called here. -/
structure DoubleVolumeDataLayout where
  GetDimensionality : Int
  GetDimensionName : Int → String
  GetDimensionIndexOffset_a : Int → Int
  GetDimensionIndexOffset_b : Int → Int

/-- Functions used by the translation unit whose definitions lie outside it. -/
structure Externals where
  /-- `utils::to_string_with_precision` of `utils.hpp` -/
  to_string_with_precision : ℚ → String
  /-- The `int` obtained when the non-finite quotient `x / 0` (plus one) is
  converted to `int`; the argument is the dividend `x`. -/
  nonfinite_to_int : ℚ → Int
  /-- The constructor `DoubleVolumeDataLayout(layout_a, layout_b)` of
  `volumedatalayout.hpp`; it may throw. -/
  DoubleVolumeDataLayout_construct :
    VolumeDataLayout → VolumeDataLayout → Except Exception DoubleVolumeDataLayout

/-- `OpenVDS::KnownAxisNames::Inline()` -/
def KnownAxisNames.Inline : String := "Inline"
/-- `OpenVDS::KnownAxisNames::Crossline()` -/
def KnownAxisNames.Crossline : String := "Crossline"
/-- `OpenVDS::KnownAxisNames::Sample()` -/
def KnownAxisNames.Sample : String := "Sample"
/-- `OpenVDS::KnownAxisNames::Depth()` -/
def KnownAxisNames.Depth : String := "Depth"
/-- `OpenVDS::KnownAxisNames::Time()` -/
def KnownAxisNames.Time : String := "Time"

/-- `make_single_cube_axis` (metadatahandle.cpp, lines 14-27) -/
def make_single_cube_axis (layout : VolumeDataLayout) (dimension : Int) : Axis :=
  let axis_descriptor := layout.GetAxisDescriptor dimension
  { min := axis_descriptor.CoordinateMin
    max := axis_descriptor.CoordinateMax
    nsamples := axis_descriptor.NumSamples
    name := axis_descriptor.Name
    unit := axis_descriptor.Unit
    dimension := dimension }

/-! ## SingleMetadataHandle -/

/-- The loop of `get_dimension`: `i` is the loop variable, `remaining` the
number of iterations still to run (`dimensionality - i`). Returns the first
index whose name is among `names`. -/
def get_dimension_loop (GetDimensionName : Int → String) (names : List String) :
    Nat → Nat → Option Int
  | _, 0 => none
  | i, remaining + 1 =>
    if GetDimensionName (i : Int) ∈ names then some (i : Int)
    else get_dimension_loop GetDimensionName names (i + 1) remaining

/-- The message of the exception thrown at the end of `get_dimension`. -/
def axis_not_found (names : List String) : Exception :=
  .runtime_error
    ("Requested axis not found under names " ++ ", ".intercalate names ++ " in vds file ")

/-- `SingleMetadataHandle::get_dimension` (lines 132-143) -/
def SingleMetadataHandle.get_dimension (m_layout : VolumeDataLayout)
    (names : List String) : Except Exception Int :=
  match get_dimension_loop m_layout.GetDimensionName names 0 m_layout.GetDimensionality.toNat with
  | some i => .ok i
  | none => .error (axis_not_found names)

/-- `SingleMetadataHandle::dimension_validation` (lines 123-130) -/
def SingleMetadataHandle.dimension_validation (m_layout : VolumeDataLayout) :
    Except Exception Unit :=
  if m_layout.GetDimensionality ≠ 3 then
    .error (.runtime_error
      ("Unsupported VDS, expected 3 dimensions, got " ++ toString m_layout.GetDimensionality))
  else .ok ()

/-- The data members of `SingleMetadataHandle` (metadatahandle.hpp, lines 57-64).
The coordinate transformer is an opaque OpenVDS object built from `m_layout`;
it takes no part in any decision of this translation unit and is left out. -/
structure SingleMetadataHandle where
  m_layout : VolumeDataLayout
  m_iline : Axis
  m_xline : Axis
  m_sample : Axis

/-- The constructor `SingleMetadataHandle::SingleMetadataHandle` (lines 29-58):
the member initialisers in declaration order, then the body. (A definition
named like its own namespace would shadow the type, hence `construct`.) -/
def SingleMetadataHandle.construct (layout : VolumeDataLayout) :
    Except Exception SingleMetadataHandle := do
  let m_iline := make_single_cube_axis layout
    (← SingleMetadataHandle.get_dimension layout [KnownAxisNames.Inline])
  let m_xline := make_single_cube_axis layout
    (← SingleMetadataHandle.get_dimension layout [KnownAxisNames.Crossline])
  let m_sample := make_single_cube_axis layout
    (← SingleMetadataHandle.get_dimension layout
      [KnownAxisNames.Sample, KnownAxisNames.Depth, KnownAxisNames.Time])
  SingleMetadataHandle.dimension_validation layout
  if m_iline.nsamples < 2 then
    throw (.runtime_error
      ("Unsupported VDS, expect at least two inLines, got " ++ toString m_iline.nsamples))
  if m_xline.nsamples < 2 then
    throw (.runtime_error
      ("Unsupported VDS, expect at least two crossLines, got " ++ toString m_xline.nsamples))
  if m_sample.nsamples < 2 then
    throw (.runtime_error
      ("Unsupported VDS, expect at least two samples, got " ++ toString m_sample.nsamples))
  pure { m_layout := layout, m_iline := m_iline, m_xline := m_xline, m_sample := m_sample }

/-- `SingleMetadataHandle::iline` (lines 60-62) -/
def SingleMetadataHandle.iline (self : SingleMetadataHandle) : Axis := self.m_iline

/-- `SingleMetadataHandle::xline` (lines 64-66) -/
def SingleMetadataHandle.xline (self : SingleMetadataHandle) : Axis := self.m_xline

/-- `SingleMetadataHandle::sample` (lines 68-70) -/
def SingleMetadataHandle.sample (self : SingleMetadataHandle) : Axis := self.m_sample

/-- `SingleMetadataHandle::get_axis(Direction)` (lines 72-83) -/
def SingleMetadataHandle.get_axis (self : SingleMetadataHandle) (direction : Direction) :
    Except Exception Axis :=
  if direction.is_iline then .ok self.iline
  else if direction.is_xline then .ok self.xline
  else if direction.is_sample then .ok self.sample
  else .error (.runtime_error "Unhandled axis")

/-- `SingleMetadataHandle::get_axis(int)` (lines 85-94); Lean has no
overloading, hence the suffix. -/
def SingleMetadataHandle.get_axis_int (self : SingleMetadataHandle) (dimension : Int) :
    Except Exception Axis :=
  if self.iline.dimension = dimension then .ok self.iline
  else if self.xline.dimension = dimension then .ok self.xline
  else if self.sample.dimension = dimension then .ok self.sample
  else .error (.runtime_error "Unhandled dimension")

/-- `SingleMetadataHandle::crs` (lines 104-107), with the key
`OpenVDS::KnownMetadata::SurveyCoordinateSystemCRSWkt()`. -/
def SingleMetadataHandle.crs (self : SingleMetadataHandle) : String :=
  self.m_layout.GetMetadataString "SurveyCoordinateSystem" "CRSWkt"

/-- `SingleMetadataHandle::input_filename` (lines 109-112), with the key
`OpenVDS::KnownMetadata::ImportInformationInputFileName()`. -/
def SingleMetadataHandle.input_filename (self : SingleMetadataHandle) : String :=
  self.m_layout.GetMetadataString "ImportInformation" "InputFileName"

/-- `SingleMetadataHandle::import_time_stamp` (lines 114-117), with the key
`OpenVDS::KnownMetadata::ImportInformationImportTimeStamp()`. -/
def SingleMetadataHandle.import_time_stamp (self : SingleMetadataHandle) : String :=
  self.m_layout.GetMetadataString "ImportInformation" "ImportTimeStamp"

/-! ## Reconciliation of two cubes -/

/-- `make_double_cube_axis` (lines 145-175). The float `1 + (max - min) / d`
with `d = (int) axis_a.stepsize()` is converted to `int` by the `Axis`
constructor; for `d = 0` the quotient is not finite. -/
def make_double_cube_axis (ext : Externals) (metadata_a metadata_b : SingleMetadataHandle)
    (dimension : Int) : Except Exception Axis := do
  let axis_a ← metadata_a.get_axis_int dimension
  let axis_b ← metadata_b.get_axis_int dimension
  if axis_a.name ≠ axis_b.name then
    let args := axis_a.name ++ " versus " ++ axis_b.name
    throw (.bad_request
      ("Dimension name mismatch for dimension " ++ toString dimension ++ ": " ++ args))
  if axis_a.unit ≠ axis_b.unit then
    let args := axis_a.unit ++ " versus " ++ axis_b.unit
    throw (.bad_request ("Dimension unit mismatch for axis " ++ axis_a.name ++ ": " ++ args))
  if axis_a.stepsize ≠ axis_b.stepsize then
    let args := ext.to_string_with_precision axis_a.stepsize ++ " versus " ++
      ext.to_string_with_precision axis_b.stepsize
    throw (.bad_request ("Stepsize mismatch in axis " ++ axis_a.name ++ ": " ++ args))
  let min := Max.max axis_a.min axis_b.min
  let max := Min.min axis_a.max axis_b.max
  let d : Int := float_to_int axis_a.stepsize
  let nsamples : Int :=
    if d = 0 then ext.nonfinite_to_int (max - min)
    else float_to_int (1 + (max - min) / (d : ℚ))
  pure { min := min, max := max, nsamples := nsamples, name := axis_a.name,
         unit := axis_a.unit, dimension := dimension }

/-- The three checks of `make_double_cube_axis` (lines 153, 158 and 163) all
pass: equal names, equal units, equal step sizes. -/
def Axis.reconcilable (axis_a axis_b : Axis) : Prop :=
  axis_a.name = axis_b.name ∧ axis_a.unit = axis_b.unit ∧ axis_a.stepsize = axis_b.stepsize

instance (axis_a axis_b : Axis) : Decidable (axis_a.reconcilable axis_b) := by
  unfold Axis.reconcilable; infer_instance

/-- The sample count computed by `make_double_cube_axis` for two axes that
passed its checks (lines 169-172). -/
def intersection_nsamples (ext : Externals) (axis_a axis_b : Axis) : Int :=
  if float_to_int axis_a.stepsize = 0 then
    ext.nonfinite_to_int (Min.min axis_a.max axis_b.max - Max.max axis_a.min axis_b.min)
  else
    float_to_int (1 + (Min.min axis_a.max axis_b.max - Max.max axis_a.min axis_b.min) /
      ((float_to_int axis_a.stepsize : Int) : ℚ))

/-! ## DoubleMetadataHandle -/

/-- The values of `enum binary_operator`; `other` stands for any value of the
underlying integer type that is not one of the five enumerators. -/
inductive binary_operator where
  | NO_OPERATOR
  | ADDITION
  | SUBTRACTION
  | MULTIPLICATION
  | DIVISION
  | other (value : Int)
  deriving DecidableEq, Repr

/-- `DoubleMetadataHandle::get_dimension` (lines 275-286) -/
def DoubleMetadataHandle.get_dimension (m_layout : DoubleVolumeDataLayout)
    (names : List String) : Except Exception Int :=
  match get_dimension_loop m_layout.GetDimensionName names 0 m_layout.GetDimensionality.toNat with
  | some i => .ok i
  | none => .error (axis_not_found names)

/-- `DoubleMetadataHandle::dimension_validation` (lines 266-273) -/
def DoubleMetadataHandle.dimension_validation (m_layout : DoubleVolumeDataLayout) :
    Except Exception Unit :=
  if m_layout.GetDimensionality ≠ 3 then
    .error (.runtime_error
      ("Unsupported VDS, expected 3 dimensions, got " ++ toString m_layout.GetDimensionality))
  else .ok ()

/-- The data members of `DoubleMetadataHandle` (metadatahandle.hpp, lines 94-104),
the coordinate transformer left out as in `SingleMetadataHandle`. -/
structure DoubleMetadataHandle where
  m_layout : DoubleVolumeDataLayout
  m_metadata_a : SingleMetadataHandle
  m_metadata_b : SingleMetadataHandle
  m_binary_symbol : binary_operator
  m_iline : Axis
  m_xline : Axis
  m_sample : Axis

/-- The constructor `DoubleMetadataHandle::DoubleMetadataHandle` (lines 177-214):
the member initialisers in declaration order, then the body. -/
def DoubleMetadataHandle.construct (ext : Externals) (layout_a layout_b : VolumeDataLayout)
    (metadata_a metadata_b : SingleMetadataHandle) (binary_symbol : binary_operator) :
    Except Exception DoubleMetadataHandle := do
  let m_layout ← ext.DoubleVolumeDataLayout_construct layout_a layout_b
  let m_iline ← make_double_cube_axis ext metadata_a metadata_b
    (← DoubleMetadataHandle.get_dimension m_layout [KnownAxisNames.Inline])
  let m_xline ← make_double_cube_axis ext metadata_a metadata_b
    (← DoubleMetadataHandle.get_dimension m_layout [KnownAxisNames.Crossline])
  let m_sample ← make_double_cube_axis ext metadata_a metadata_b
    (← DoubleMetadataHandle.get_dimension m_layout
      [KnownAxisNames.Sample, KnownAxisNames.Depth, KnownAxisNames.Time])
  DoubleMetadataHandle.dimension_validation m_layout
  if m_iline.nsamples < 2 then
    throw (.runtime_error
      ("Unsupported VDS pair, expect that the intersection contains at least two inLines, got "
        ++ toString m_iline.nsamples))
  if m_xline.nsamples < 2 then
    throw (.runtime_error
      ("Unsupported VDS pair, expect that the intersection contains at least two crossLines, got "
        ++ toString m_xline.nsamples))
  if m_sample.nsamples < 2 then
    throw (.runtime_error
      ("Unsupported VDS pair, expect that the intersection contains at least two samples, got "
        ++ toString m_sample.nsamples))
  pure { m_layout := m_layout, m_metadata_a := metadata_a, m_metadata_b := metadata_b,
         m_binary_symbol := binary_symbol, m_iline := m_iline, m_xline := m_xline,
         m_sample := m_sample }

/-- `DoubleMetadataHandle::iline` (lines 216-218) -/
def DoubleMetadataHandle.iline (self : DoubleMetadataHandle) : Axis := self.m_iline

/-- `DoubleMetadataHandle::xline` (lines 220-222) -/
def DoubleMetadataHandle.xline (self : DoubleMetadataHandle) : Axis := self.m_xline

/-- `DoubleMetadataHandle::sample` (lines 224-226) -/
def DoubleMetadataHandle.sample (self : DoubleMetadataHandle) : Axis := self.m_sample

/-- `DoubleMetadataHandle::get_axis` (lines 228-239) -/
def DoubleMetadataHandle.get_axis (self : DoubleMetadataHandle) (direction : Direction) :
    Except Exception Axis :=
  if direction.is_iline then .ok self.iline
  else if direction.is_xline then .ok self.xline
  else if direction.is_sample then .ok self.sample
  else .error (.runtime_error "Unhandled axis")

/-- `DoubleMetadataHandle::operator_string` (lines 288-309) -/
def DoubleMetadataHandle.operator_string (self : DoubleMetadataHandle) : String :=
  match self.m_binary_symbol with
  | .NO_OPERATOR => " ? "
  | .ADDITION => " + "
  | .SUBTRACTION => " - "
  | .MULTIPLICATION => " * "
  | .DIVISION => " / "
  | .other _ => " XX "

/-- `DoubleMetadataHandle::crs` (lines 249-252) -/
def DoubleMetadataHandle.crs (self : DoubleMetadataHandle) : String :=
  self.m_metadata_a.crs

/-- `DoubleMetadataHandle::input_filename` (lines 254-256) -/
def DoubleMetadataHandle.input_filename (self : DoubleMetadataHandle) : String :=
  self.m_metadata_a.input_filename ++ self.operator_string ++ self.m_metadata_b.input_filename

/-- `DoubleMetadataHandle::import_time_stamp` (lines 258-260) -/
def DoubleMetadataHandle.import_time_stamp (self : DoubleMetadataHandle) : String :=
  self.m_metadata_a.import_time_stamp ++ self.operator_string ++
    self.m_metadata_b.import_time_stamp

/-- A `voxel` is `float[OpenVDS::Dimensionality_Max]` (metadatahandle.hpp, line 14):
the elements `0 .. Dimensionality_Max - 1` of the map. -/
abbrev voxel := Nat → ℚ

/-- `DoubleMetadataHandle::offset_samples_to_match_cube_a` (lines 311-319).
`samples v` is the voxel `samples[v]`; `data` is the storage behind
`samples_a->data()` as a map from element index to float, in which the caller
provides room for `nsamples * Dimensionality_Max` elements. The result is the
storage after the two loops. -/
def DoubleMetadataHandle.offset_samples_to_match_cube_a (self : DoubleMetadataHandle)
    (samples : Nat → voxel) (nsamples : Nat) (data : Nat → ℚ) : Nat → ℚ :=
  (List.range nsamples).foldl (fun data v =>
    (List.range Dimensionality_Max).foldl (fun data i =>
      Function.update data (v * Dimensionality_Max + i)
        (samples v i + ((self.m_layout.GetDimensionIndexOffset_a (i : Int) : Int) : ℚ)))
      data) data

/-- `DoubleMetadataHandle::offset_samples_to_match_cube_b` (lines 321-329) -/
def DoubleMetadataHandle.offset_samples_to_match_cube_b (self : DoubleMetadataHandle)
    (samples : Nat → voxel) (nsamples : Nat) (data : Nat → ℚ) : Nat → ℚ :=
  (List.range nsamples).foldl (fun data v =>
    (List.range Dimensionality_Max).foldl (fun data i =>
      Function.update data (v * Dimensionality_Max + i)
        (samples v i + ((self.m_layout.GetDimensionIndexOffset_b (i : Int) : Int) : ℚ)))
      data) data

/-! ## Concrete cubes used as test inputs -/

/-- A three-dimensional layout (Inline, Crossline, Sample) whose inline axis
runs from `lo` to `hi` in `n` samples. -/
def survey (lo hi : ℚ) (n : Int) : VolumeDataLayout where
  GetDimensionality := 3
  GetDimensionName := fun i => if i = 0 then "Inline" else if i = 1 then "Crossline" else "Sample"
  GetAxisDescriptor := fun i =>
    if i = 0 then ⟨lo, hi, n, "Inline", "unitless"⟩
    else if i = 1 then ⟨0, 10, 11, "Crossline", "unitless"⟩
    else ⟨0, 40, 11, "Sample", "ms"⟩
  GetMetadataString := fun _ _ => ""

/-- A four-dimensional layout: the three axes of `survey 0 100 101` and a
fourth dimension. -/
def survey_4d : VolumeDataLayout where
  GetDimensionality := 4
  GetDimensionName := fun i =>
    if i = 0 then "Inline" else if i = 1 then "Crossline" else if i = 2 then "Sample"
    else "Trace"
  GetAxisDescriptor := fun i =>
    if i = 0 then ⟨0, 100, 101, "Inline", "unitless"⟩
    else if i = 1 then ⟨0, 10, 11, "Crossline", "unitless"⟩
    else if i = 2 then ⟨0, 40, 11, "Sample", "ms"⟩
    else ⟨0, 1, 2, "Trace", "unitless"⟩
  GetMetadataString := fun _ _ => ""

/-- The handle that `SingleMetadataHandle.construct` builds from `survey lo hi n`. -/
def survey_handle (lo hi : ℚ) (n : Int) : SingleMetadataHandle where
  m_layout := survey lo hi n
  m_iline := ⟨lo, hi, n, "Inline", "unitless", 0⟩
  m_xline := ⟨0, 10, 11, "Crossline", "unitless", 1⟩
  m_sample := ⟨0, 40, 11, "Sample", "ms", 2⟩

/-- The layout `survey lo hi n` with its third axis recorded in depth: named
"Depth", in metres. -/
def survey_depth (lo hi : ℚ) (n : Int) : VolumeDataLayout where
  GetDimensionality := 3
  GetDimensionName := fun i => if i = 0 then "Inline" else if i = 1 then "Crossline" else "Depth"
  GetAxisDescriptor := fun i =>
    if i = 0 then ⟨lo, hi, n, "Inline", "unitless"⟩
    else if i = 1 then ⟨0, 10, 11, "Crossline", "unitless"⟩
    else ⟨0, 40, 11, "Depth", "m"⟩
  GetMetadataString := fun _ _ => ""

/-- The handle that `SingleMetadataHandle.construct` builds from `survey_depth lo hi n`. -/
def survey_depth_handle (lo hi : ℚ) (n : Int) : SingleMetadataHandle where
  m_layout := survey_depth lo hi n
  m_iline := ⟨lo, hi, n, "Inline", "unitless", 0⟩
  m_xline := ⟨0, 10, 11, "Crossline", "unitless", 1⟩
  m_sample := ⟨0, 40, 11, "Depth", "m", 2⟩

/-- Externals for the test inputs: the composite layout takes its dimensions
from cube A and has zero offsets, and the conversion of a non-finite float
gives `INT_MIN`. -/
def test_externals : Externals where
  to_string_with_precision := fun x => toString x
  nonfinite_to_int := fun _ => -2147483648
  DoubleVolumeDataLayout_construct := fun layout_a _ =>
    .ok ⟨layout_a.GetDimensionality, layout_a.GetDimensionName, fun _ => 0, fun _ => 0⟩

/-- A composite layout over `survey 0 100 101` and `survey 50 150 101`: the
intersection starts at inline 50, that is 50 samples into cube A and at the
origin of cube B. -/
def test_double_layout : DoubleVolumeDataLayout where
  GetDimensionality := 3
  GetDimensionName := (survey 0 100 101).GetDimensionName
  GetDimensionIndexOffset_a := fun i => if i = 0 then 50 else 0
  GetDimensionIndexOffset_b := fun _ => 0

/-- A double handle over `survey 0 100 101` and `survey 50 150 101`. -/
def test_double_handle : DoubleMetadataHandle where
  m_layout := test_double_layout
  m_metadata_a := survey_handle 0 100 101
  m_metadata_b := survey_handle 50 150 101
  m_binary_symbol := binary_operator.ADDITION
  m_iline := ⟨50, 100, 51, "Inline", "unitless", 0⟩
  m_xline := ⟨0, 10, 11, "Crossline", "unitless", 1⟩
  m_sample := ⟨0, 40, 11, "Sample", "ms", 2⟩

/-- A batch of voxels: voxel `v` holds `10 * v + i` in dimension `i`. -/
def test_voxels : Nat → voxel := fun v i => 10 * (v : ℚ) + (i : ℚ)

/-- The symbol of a binary operator in the spec's words: "none→"?", add→"+",
subtract→"-", multiply→"*", divide→"/", unrecognized→"XX"". -/
def operator_symbol : binary_operator → String
  | .NO_OPERATOR => "?"
  | .ADDITION => "+"
  | .SUBTRACTION => "-"
  | .MULTIPLICATION => "*"
  | .DIVISION => "/"
  | .other _ => "XX"

/-- The layout `survey 0 100 101` with provenance metadata: the name of the
imported file and the time stamp of the import. -/
def survey_file (file stamp : String) : VolumeDataLayout where
  GetDimensionality := 3
  GetDimensionName := (survey 0 100 101).GetDimensionName
  GetAxisDescriptor := (survey 0 100 101).GetAxisDescriptor
  GetMetadataString := fun category name =>
    if category = "ImportInformation" ∧ name = "InputFileName" then file
    else if category = "ImportInformation" ∧ name = "ImportTimeStamp" then stamp
    else ""

/-- The handle that `SingleMetadataHandle.construct` builds from `survey_file file stamp`. -/
def survey_file_handle (file stamp : String) : SingleMetadataHandle where
  m_layout := survey_file file stamp
  m_iline := ⟨0, 100, 101, "Inline", "unitless", 0⟩
  m_xline := ⟨0, 10, 11, "Crossline", "unitless", 1⟩
  m_sample := ⟨0, 40, 11, "Sample", "ms", 2⟩

/-- Modelled from the spec: `utils::to_string_with_precision` of `utils.hpp`,
"fixed-precision formatting". The value is rounded to six decimals and
written as its integer part, a point and six digits. -/
def fixed_precision_string (x : ℚ) : String :=
  let scaled : Int := ⌊x * 1000000 + 1 / 2⌋
  let digits := toString (scaled.natAbs % 1000000)
  (if scaled < 0 then "-" else "") ++ toString (scaled.natAbs / 1000000) ++ "." ++
    String.join (List.replicate (6 - digits.length) "0") ++ digits

/-- The externals `test_externals` with the fixed-precision formatting. -/
def test_externals_fixed : Externals where
  to_string_with_precision := fixed_precision_string
  nonfinite_to_int := test_externals.nonfinite_to_int
  DoubleVolumeDataLayout_construct := test_externals.DoubleVolumeDataLayout_construct

/-! # Theorems -/

/-! ### Reconciliation of one axis -/

/-- The axis returned by `make_double_cube_axis` when the three checks pass. -/
theorem make_double_cube_axis_ok (ext : Externals) (metadata_a metadata_b : SingleMetadataHandle)
    (dimension : Int) (axis_a axis_b : Axis)
    (ha : metadata_a.get_axis_int dimension = .ok axis_a)
    (hb : metadata_b.get_axis_int dimension = .ok axis_b)
    (hname : axis_a.name = axis_b.name) (hunit : axis_a.unit = axis_b.unit)
    (hstep : axis_a.stepsize = axis_b.stepsize) :
    make_double_cube_axis ext metadata_a metadata_b dimension =
      .ok { min := Max.max axis_a.min axis_b.min, max := Min.min axis_a.max axis_b.max,
            nsamples := intersection_nsamples ext axis_a axis_b,
            name := axis_a.name, unit := axis_a.unit, dimension := dimension } := by
  simp [make_double_cube_axis, ha, hb, hname, hunit, hstep, intersection_nsamples, bind,
    Except.bind, pure, Except.pure]

/-- Truncation leaves an integer unchanged. -/
theorem float_to_int_intCast (n : Int) : float_to_int (n : ℚ) = n := by
  simp [float_to_int]

/-- Truncation of a non-negative value is its floor. -/
theorem float_to_int_of_nonneg (x : ℚ) (h : 0 ≤ x) : float_to_int x = ⌊x⌋ := by
  simp [float_to_int, h]

/-- The cast `(int) 2.5` gives 2. -/
theorem float_to_int_five_halves : float_to_int (5 / 2) = 2 := by
  rw [float_to_int_of_nonneg _ (by norm_num), Int.floor_eq_iff]
  norm_num

/-- C1, as amended. For two axes found at `dimension` in two constructed handles, with
equal name, unit and step size, whose step size truncated to `int` is a
nonzero `d`: `make_double_cube_axis` returns an axis, and its sample count is
`1 + (max - min) / d` truncated toward zero, where `min = max(A.min, B.min)`
and `max = min(A.max, B.max)`. When the step size is itself an integer and
`(max - min) / stepsize >= -1`, that count is `1 + floor((max - min) / stepsize)`. -/
theorem C1_nsamples_formula (ext : Externals) (layout_a layout_b : VolumeDataLayout)
    (metadata_a metadata_b : SingleMetadataHandle) (dimension : Int) (axis_a axis_b : Axis)
    (_hva : SingleMetadataHandle.construct layout_a = .ok metadata_a)
    (_hvb : SingleMetadataHandle.construct layout_b = .ok metadata_b)
    (ha : metadata_a.get_axis_int dimension = .ok axis_a)
    (hb : metadata_b.get_axis_int dimension = .ok axis_b)
    (hname : axis_a.name = axis_b.name) (hunit : axis_a.unit = axis_b.unit)
    (hstep : axis_a.stepsize = axis_b.stepsize)
    (hd : float_to_int axis_a.stepsize ≠ 0) :
    ∃ r, make_double_cube_axis ext metadata_a metadata_b dimension = .ok r ∧
      r.nsamples = float_to_int (1 + (Min.min axis_a.max axis_b.max - Max.max axis_a.min axis_b.min) /
        ((float_to_int axis_a.stepsize : Int) : ℚ)) ∧
      (((float_to_int axis_a.stepsize : Int) : ℚ) = axis_a.stepsize →
        -1 ≤ (Min.min axis_a.max axis_b.max - Max.max axis_a.min axis_b.min) / axis_a.stepsize →
        r.nsamples =
          1 + ⌊(Min.min axis_a.max axis_b.max - Max.max axis_a.min axis_b.min) / axis_a.stepsize⌋) := by
  refine ⟨_, make_double_cube_axis_ok ext _ _ _ _ _ ha hb hname hunit hstep, ?_, ?_⟩
  · simp [intersection_nsamples, hd]
  · intro hint hq
    simp only [intersection_nsamples, hd, if_false, hint]
    rw [float_to_int_of_nonneg _ (by linarith), add_comm, Int.floor_add_one, add_comm]

/-- C1, the example of the claim: A = [0,100] step 1 and B = [50,150] step 1
reconcile to an axis of 51 samples. -/
theorem C1_nsamples_formula_witness :
    ∃ r, make_double_cube_axis test_externals (survey_handle 0 100 101) (survey_handle 50 150 101) 0
        = .ok r ∧ r.nsamples = 51 := by
  have hs : ∀ lo : ℚ, (⟨lo, lo + 100, 101, "Inline", "unitless", 0⟩ : Axis).stepsize = 1 := by
    intro lo; norm_num [Axis.stepsize]
  have hs0 := hs 0
  have hs50 := hs 50
  norm_num at hs0 hs50
  have hf : float_to_int (⟨0, 100, 101, "Inline", "unitless", 0⟩ : Axis).stepsize = 1 := by
    rw [hs0]; exact_mod_cast float_to_int_intCast 1
  obtain ⟨r, hr, _, h2⟩ := C1_nsamples_formula test_externals (survey 0 100 101)
    (survey 50 150 101) (survey_handle 0 100 101)
    (survey_handle 50 150 101) 0 ⟨0, 100, 101, "Inline", "unitless", 0⟩
    ⟨50, 150, 101, "Inline", "unitless", 0⟩ rfl rfl rfl rfl rfl rfl (by rw [hs0, hs50])
    (by rw [hf]; decide)
  refine ⟨r, hr, ?_⟩
  rw [h2 (by rw [hf, hs0]; norm_num) (by rw [hs0]; norm_num)]
  rw [hs0]
  norm_num

/-- C1 fails as stated: a cube whose inline axis is [0,10] in 5 samples (step
2.5) reconciled with itself gets 6 samples, the divisor being `(int) 2.5 = 2`,
where `1 + floor((max - min) / stepsize)` is 5. -/
theorem C1_counterexample :
    SingleMetadataHandle.construct (survey 0 10 5) = .ok (survey_handle 0 10 5) ∧
    (survey_handle 0 10 5).get_axis_int 0 = .ok ⟨0, 10, 5, "Inline", "unitless", 0⟩ ∧
    (⟨0, 10, 5, "Inline", "unitless", 0⟩ : Axis).stepsize = 5 / 2 ∧
    make_double_cube_axis test_externals (survey_handle 0 10 5) (survey_handle 0 10 5) 0
      = .ok ⟨0, 10, 6, "Inline", "unitless", 0⟩ ∧
    1 + ⌊(Min.min (10 : ℚ) 10 - Max.max 0 0) / (5 / 2)⌋ = 5 := by
  have hs : (⟨0, 10, 5, "Inline", "unitless", 0⟩ : Axis).stepsize = 5 / 2 := by
    norm_num [Axis.stepsize]
  refine ⟨rfl, rfl, hs, ?_, ?_⟩
  · rw [make_double_cube_axis_ok test_externals (survey_handle 0 10 5) (survey_handle 0 10 5) 0
      ⟨0, 10, 5, "Inline", "unitless", 0⟩ ⟨0, 10, 5, "Inline", "unitless", 0⟩ rfl rfl rfl rfl rfl]
    simp only [intersection_nsamples, hs, float_to_int_five_halves]
    norm_num
    exact_mod_cast float_to_int_intCast 6
  · norm_num

/-- C2. For two axes found at `dimension` in two constructed handles that pass the
name, unit and step-size checks, `make_double_cube_axis` returns an axis with
`min = max(A.min, B.min)`, `max = min(A.max, B.max)`, the name and the unit of
A (which are those of B) and the dimension index `dimension`. -/
theorem C2_intersection_axis (ext : Externals) (layout_a layout_b : VolumeDataLayout)
    (metadata_a metadata_b : SingleMetadataHandle) (dimension : Int) (axis_a axis_b : Axis)
    (_hva : SingleMetadataHandle.construct layout_a = .ok metadata_a)
    (_hvb : SingleMetadataHandle.construct layout_b = .ok metadata_b)
    (ha : metadata_a.get_axis_int dimension = .ok axis_a)
    (hb : metadata_b.get_axis_int dimension = .ok axis_b)
    (hname : axis_a.name = axis_b.name) (hunit : axis_a.unit = axis_b.unit)
    (hstep : axis_a.stepsize = axis_b.stepsize) :
    ∃ r, make_double_cube_axis ext metadata_a metadata_b dimension = .ok r ∧
      r.min = Max.max axis_a.min axis_b.min ∧ r.max = Min.min axis_a.max axis_b.max ∧
      r.name = axis_a.name ∧ r.name = axis_b.name ∧
      r.unit = axis_a.unit ∧ r.unit = axis_b.unit ∧ r.dimension = dimension :=
  ⟨_, make_double_cube_axis_ok ext _ _ _ _ _ ha hb hname hunit hstep,
    rfl, rfl, rfl, hname, rfl, hunit, rfl⟩

/-- C2, the example of the claim: A = [0,100] and B = [50,150] reconcile to
min = 50, max = 100. -/
theorem C2_intersection_axis_witness :
    ∃ r, make_double_cube_axis test_externals (survey_handle 0 100 101) (survey_handle 50 150 101) 0
        = .ok r ∧ r.min = 50 ∧ r.max = 100 ∧ r.name = "Inline" ∧ r.unit = "unitless" ∧
        r.dimension = 0 := by
  obtain ⟨r, hr, hmin, hmax, hname, _, hunit, _, hdim⟩ :=
    C2_intersection_axis test_externals (survey 0 100 101) (survey 50 150 101)
      (survey_handle 0 100 101) (survey_handle 50 150 101) 0
      ⟨0, 100, 101, "Inline", "unitless", 0⟩ ⟨50, 150, 101, "Inline", "unitless", 0⟩
      rfl rfl rfl rfl rfl rfl (by norm_num [Axis.stepsize])
  refine ⟨r, hr, ?_, ?_, hname, hunit, hdim⟩
  · rw [hmin]; norm_num
  · rw [hmax]; norm_num

/-- The axis returned by `make_double_cube_axis`, if any, in closed form. -/
theorem make_double_cube_axis_toOption (ext : Externals)
    (metadata_a metadata_b : SingleMetadataHandle) (dimension : Int) :
    (make_double_cube_axis ext metadata_a metadata_b dimension).toOption =
      match metadata_a.get_axis_int dimension, metadata_b.get_axis_int dimension with
      | .ok axis_a, .ok axis_b =>
        if axis_a.name = axis_b.name ∧ axis_a.unit = axis_b.unit ∧
            axis_a.stepsize = axis_b.stepsize then
          some { min := Max.max axis_a.min axis_b.min, max := Min.min axis_a.max axis_b.max,
                 nsamples := intersection_nsamples ext axis_a axis_b,
                 name := axis_a.name, unit := axis_a.unit, dimension := dimension }
        else none
      | _, _ => none := by
  cases ha : metadata_a.get_axis_int dimension with
  | error e => simp [make_double_cube_axis, ha, bind, Except.bind, Except.toOption]
  | ok axis_a =>
    cases hb : metadata_b.get_axis_int dimension with
    | error e => simp [make_double_cube_axis, ha, hb, bind, Except.bind, Except.toOption]
    | ok axis_b =>
      by_cases hname : axis_a.name = axis_b.name
      · by_cases hunit : axis_a.unit = axis_b.unit
        · by_cases hstep : axis_a.stepsize = axis_b.stepsize
          · rw [make_double_cube_axis_ok ext _ _ _ _ _ ha hb hname hunit hstep]
            simp [Except.toOption, hname, hunit, hstep]
          · simp [make_double_cube_axis, ha, hb, hname, hunit, hstep, bind, Except.bind,
              Except.toOption, throw, throwThe, MonadExceptOf.throw, pure, Except.pure]
        · simp [make_double_cube_axis, ha, hb, hname, hunit, bind, Except.bind,
            Except.toOption, throw, throwThe, MonadExceptOf.throw, pure, Except.pure]
      · simp [make_double_cube_axis, ha, hb, hname, bind, Except.bind,
          Except.toOption, throw, throwThe, MonadExceptOf.throw, pure, Except.pure]

/-- The sample count does not depend on the order of two axes of equal step. -/
theorem intersection_nsamples_comm (ext : Externals) (axis_a axis_b : Axis)
    (hstep : axis_a.stepsize = axis_b.stepsize) :
    intersection_nsamples ext axis_a axis_b = intersection_nsamples ext axis_b axis_a := by
  simp only [intersection_nsamples, hstep, min_comm axis_a.max, max_comm axis_a.min]

/-- C6. Reconciliation is symmetric: `make_double_cube_axis` on (A, B) returns
an axis exactly when it does on (B, A), and then the two axes are equal, so
that they have the same min, max and nsamples. (`Except.toOption` keeps a
returned axis and forgets which exception was thrown.) -/
theorem C6_reconcile_symmetric (ext : Externals) (metadata_a metadata_b : SingleMetadataHandle)
    (dimension : Int) :
    (make_double_cube_axis ext metadata_a metadata_b dimension).toOption =
      (make_double_cube_axis ext metadata_b metadata_a dimension).toOption := by
  rw [make_double_cube_axis_toOption, make_double_cube_axis_toOption]
  cases metadata_a.get_axis_int dimension with
  | error e => cases metadata_b.get_axis_int dimension <;> rfl
  | ok axis_a =>
    cases metadata_b.get_axis_int dimension with
    | error e => rfl
    | ok axis_b =>
      by_cases h : axis_a.name = axis_b.name ∧ axis_a.unit = axis_b.unit ∧
          axis_a.stepsize = axis_b.stepsize
      · obtain ⟨hname, hunit, hstep⟩ := h
        simp [hname, hunit, hstep, min_comm axis_a.max, max_comm axis_a.min,
          intersection_nsamples_comm ext axis_a axis_b hstep]
      · have h' : ¬ (axis_b.name = axis_a.name ∧ axis_b.unit = axis_a.unit ∧
            axis_b.stepsize = axis_a.stepsize) := fun ⟨h1, h2, h3⟩ => h ⟨h1.symm, h2.symm, h3.symm⟩
        simp only [h, h', if_false]

/-! ### The name lookup -/

/-- The loop returns the first index, from `i` on, whose name is accepted. -/
theorem get_dimension_loop_some (f : Int → String) (names : List String) :
    ∀ (remaining i : Nat) (d : Int), get_dimension_loop f names i remaining = some d →
      ∃ j : Nat, d = (j : Int) ∧ i ≤ j ∧ j < i + remaining ∧ f (j : Int) ∈ names ∧
        ∀ k : Nat, i ≤ k → k < j → f (k : Int) ∉ names := by
  intro remaining
  induction remaining with
  | zero => intro i d h; simp [get_dimension_loop] at h
  | succ n ih =>
    intro i d h
    rw [get_dimension_loop] at h
    by_cases hmem : f (i : Int) ∈ names
    · rw [if_pos hmem] at h
      refine ⟨i, (Option.some.inj h).symm, le_refl _, by omega, hmem, ?_⟩
      intro k h1 h2; omega
    · rw [if_neg hmem] at h
      obtain ⟨j, hd, hij, hjn, hj, hfirst⟩ := ih (i + 1) d h
      refine ⟨j, hd, by omega, by omega, hj, ?_⟩
      intro k h1 h2
      by_cases hk : k = i
      · subst hk; exact hmem
      · exact hfirst k (by omega) h2

/-- The loop finds nothing only if no name in its range is accepted. -/
theorem get_dimension_loop_none (f : Int → String) (names : List String) :
    ∀ (remaining i : Nat), get_dimension_loop f names i remaining = none →
      ∀ k : Nat, i ≤ k → k < i + remaining → f (k : Int) ∉ names := by
  intro remaining
  induction remaining with
  | zero => intro i _ k h1 h2; omega
  | succ n ih =>
    intro i h k h1 h2
    rw [get_dimension_loop] at h
    by_cases hmem : f (i : Int) ∈ names
    · rw [if_pos hmem] at h; exact absurd h (by simp)
    · rw [if_neg hmem] at h
      by_cases hk : k = i
      · subst hk; exact hmem
      · exact ih (i + 1) h k (by omega) (by omega)

/-- What a successful `SingleMetadataHandle::get_dimension` returns. -/
theorem SingleMetadataHandle.get_dimension_ok (layout : VolumeDataLayout) (names : List String)
    (d : Int) (h : SingleMetadataHandle.get_dimension layout names = .ok d) :
    0 ≤ d ∧ d < layout.GetDimensionality ∧ layout.GetDimensionName d ∈ names ∧
      ∀ k : Int, 0 ≤ k → k < d → layout.GetDimensionName k ∉ names := by
  unfold SingleMetadataHandle.get_dimension at h
  cases hl : get_dimension_loop layout.GetDimensionName names 0 layout.GetDimensionality.toNat with
  | none => rw [hl] at h; cases h
  | some i =>
    rw [hl] at h
    have hid : i = d := by injection h
    subst hid
    obtain ⟨j, hd, _, hjn, hj, hfirst⟩ := get_dimension_loop_some _ _ _ _ _ hl
    subst hd
    refine ⟨by omega, by omega, hj, ?_⟩
    intro k hk0 hkj
    have := hfirst k.toNat (by omega) (by omega)
    rwa [Int.toNat_of_nonneg hk0] at this

/-- A failing `SingleMetadataHandle::get_dimension` throws the not-found error. -/
theorem SingleMetadataHandle.get_dimension_cases (layout : VolumeDataLayout)
    (names : List String) :
    (∃ d, SingleMetadataHandle.get_dimension layout names = .ok d) ∨
      SingleMetadataHandle.get_dimension layout names = .error (axis_not_found names) := by
  unfold SingleMetadataHandle.get_dimension
  cases get_dimension_loop layout.GetDimensionName names 0 layout.GetDimensionality.toNat with
  | none => exact Or.inr rfl
  | some i => exact Or.inl ⟨i, rfl⟩

/-- The constructor once the three dimensions are resolved: the validation
of the body, in order. -/
theorem SingleMetadataHandle.construct_resolved (layout : VolumeDataLayout) (di dx ds : Int)
    (hi : SingleMetadataHandle.get_dimension layout [KnownAxisNames.Inline] = .ok di)
    (hx : SingleMetadataHandle.get_dimension layout [KnownAxisNames.Crossline] = .ok dx)
    (hs : SingleMetadataHandle.get_dimension layout
      [KnownAxisNames.Sample, KnownAxisNames.Depth, KnownAxisNames.Time] = .ok ds) :
    SingleMetadataHandle.construct layout =
      if layout.GetDimensionality ≠ 3 then
        .error (.runtime_error
          ("Unsupported VDS, expected 3 dimensions, got " ++ toString layout.GetDimensionality))
      else if (make_single_cube_axis layout di).nsamples < 2 then
        .error (.runtime_error ("Unsupported VDS, expect at least two inLines, got " ++
          toString (make_single_cube_axis layout di).nsamples))
      else if (make_single_cube_axis layout dx).nsamples < 2 then
        .error (.runtime_error ("Unsupported VDS, expect at least two crossLines, got " ++
          toString (make_single_cube_axis layout dx).nsamples))
      else if (make_single_cube_axis layout ds).nsamples < 2 then
        .error (.runtime_error ("Unsupported VDS, expect at least two samples, got " ++
          toString (make_single_cube_axis layout ds).nsamples))
      else .ok { m_layout := layout, m_iline := make_single_cube_axis layout di,
                 m_xline := make_single_cube_axis layout dx,
                 m_sample := make_single_cube_axis layout ds } := by
  simp only [SingleMetadataHandle.construct, hi, hx, hs, bind, Except.bind,
    SingleMetadataHandle.dimension_validation]
  split_ifs <;> rfl

/-- Every exit of the constructor through a failed name lookup. -/
theorem SingleMetadataHandle.construct_unresolved (layout : VolumeDataLayout)
    (h : (∀ d, SingleMetadataHandle.get_dimension layout [KnownAxisNames.Inline] ≠ .ok d) ∨
      (∀ d, SingleMetadataHandle.get_dimension layout [KnownAxisNames.Crossline] ≠ .ok d) ∨
      (∀ d, SingleMetadataHandle.get_dimension layout
        [KnownAxisNames.Sample, KnownAxisNames.Depth, KnownAxisNames.Time] ≠ .ok d)) :
    ∃ names, SingleMetadataHandle.construct layout = .error (axis_not_found names) := by
  rcases SingleMetadataHandle.get_dimension_cases layout [KnownAxisNames.Inline] with
    ⟨di, hi⟩ | hi
  · rcases SingleMetadataHandle.get_dimension_cases layout [KnownAxisNames.Crossline] with
      ⟨dx, hx⟩ | hx
    · rcases SingleMetadataHandle.get_dimension_cases layout
        [KnownAxisNames.Sample, KnownAxisNames.Depth, KnownAxisNames.Time] with ⟨ds, hs⟩ | hs
      · rcases h with h | h | h
        · exact absurd hi (h di)
        · exact absurd hx (h dx)
        · exact absurd hs (h ds)
      · exact ⟨_, by simp only [SingleMetadataHandle.construct, hi, hx, hs, bind, Except.bind]; rfl⟩
    · exact ⟨_, by simp only [SingleMetadataHandle.construct, hi, hx, bind, Except.bind]; rfl⟩
  · exact ⟨_, by simp only [SingleMetadataHandle.construct, hi, bind, Except.bind]; rfl⟩

/-- What is known of a handle that the constructor returned. -/
theorem SingleMetadataHandle.construct_ok (layout : VolumeDataLayout)
    (handle : SingleMetadataHandle) (h : SingleMetadataHandle.construct layout = .ok handle) :
    ∃ di dx ds,
      SingleMetadataHandle.get_dimension layout [KnownAxisNames.Inline] = .ok di ∧
      SingleMetadataHandle.get_dimension layout [KnownAxisNames.Crossline] = .ok dx ∧
      SingleMetadataHandle.get_dimension layout
        [KnownAxisNames.Sample, KnownAxisNames.Depth, KnownAxisNames.Time] = .ok ds ∧
      layout.GetDimensionality = 3 ∧
      handle = { m_layout := layout, m_iline := make_single_cube_axis layout di,
                 m_xline := make_single_cube_axis layout dx,
                 m_sample := make_single_cube_axis layout ds } ∧
      2 ≤ handle.m_iline.nsamples ∧ 2 ≤ handle.m_xline.nsamples ∧
      2 ≤ handle.m_sample.nsamples := by
  rcases SingleMetadataHandle.get_dimension_cases layout [KnownAxisNames.Inline] with
    ⟨di, hi⟩ | hi
  swap
  · obtain ⟨n, hn⟩ := SingleMetadataHandle.construct_unresolved layout
      (Or.inl (fun d hd => by rw [hi] at hd; cases hd))
    rw [hn] at h; cases h
  rcases SingleMetadataHandle.get_dimension_cases layout [KnownAxisNames.Crossline] with
    ⟨dx, hx⟩ | hx
  swap
  · obtain ⟨n, hn⟩ := SingleMetadataHandle.construct_unresolved layout
      (Or.inr (Or.inl (fun d hd => by rw [hx] at hd; cases hd)))
    rw [hn] at h; cases h
  rcases SingleMetadataHandle.get_dimension_cases layout
    [KnownAxisNames.Sample, KnownAxisNames.Depth, KnownAxisNames.Time] with ⟨ds, hs⟩ | hs
  swap
  · obtain ⟨n, hn⟩ := SingleMetadataHandle.construct_unresolved layout
      (Or.inr (Or.inr (fun d hd => by rw [hs] at hd; cases hd)))
    rw [hn] at h; cases h
  rw [SingleMetadataHandle.construct_resolved layout di dx ds hi hx hs] at h
  split_ifs at h with h3 h1 h2 h4
  have hh : handle = _ := (Except.ok.inj h).symm
  refine ⟨di, dx, ds, hi, hx, hs, not_not.mp h3, hh, ?_, ?_, ?_⟩
  · rw [hh]; exact not_lt.mp h1
  · rw [hh]; exact not_lt.mp h2
  · rw [hh]; exact not_lt.mp h4

/-- C7. For every layout whose dimensionality is not 3 the constructor of
`SingleMetadataHandle` throws a `std::runtime_error` and returns no handle,
whatever names and sample counts the layout reports. -/
theorem C7_dimensionality_rejected (layout : VolumeDataLayout)
    (h : layout.GetDimensionality ≠ 3) :
    (∃ what, SingleMetadataHandle.construct layout = .error (.runtime_error what)) ∧
      ∀ handle, SingleMetadataHandle.construct layout ≠ .ok handle := by
  have key : ∃ what, SingleMetadataHandle.construct layout = .error (.runtime_error what) := by
    by_cases hr : ∃ di dx ds,
        SingleMetadataHandle.get_dimension layout [KnownAxisNames.Inline] = .ok di ∧
        SingleMetadataHandle.get_dimension layout [KnownAxisNames.Crossline] = .ok dx ∧
        SingleMetadataHandle.get_dimension layout
          [KnownAxisNames.Sample, KnownAxisNames.Depth, KnownAxisNames.Time] = .ok ds
    · obtain ⟨di, dx, ds, hi, hx, hs⟩ := hr
      rw [SingleMetadataHandle.construct_resolved layout di dx ds hi hx hs, if_pos h]
      exact ⟨_, rfl⟩
    · have : (∀ d, SingleMetadataHandle.get_dimension layout [KnownAxisNames.Inline] ≠ .ok d) ∨
          (∀ d, SingleMetadataHandle.get_dimension layout [KnownAxisNames.Crossline] ≠ .ok d) ∨
          (∀ d, SingleMetadataHandle.get_dimension layout
            [KnownAxisNames.Sample, KnownAxisNames.Depth, KnownAxisNames.Time] ≠ .ok d) := by
        by_contra hc
        push_neg at hc
        obtain ⟨⟨di, hi⟩, ⟨dx, hx⟩, ⟨ds, hs⟩⟩ := hc
        exact hr ⟨di, dx, ds, hi, hx, hs⟩
      obtain ⟨names, hn⟩ := SingleMetadataHandle.construct_unresolved layout this
      exact ⟨_, hn⟩
  refine ⟨key, ?_⟩
  intro handle hh
  obtain ⟨what, hw⟩ := key
  rw [hw] at hh
  cases hh

/-- C7 on a four-dimensional layout whose three axes resolve. -/
theorem C7_dimensionality_rejected_witness :
    survey_4d.GetDimensionality ≠ 3 ∧
      ((∃ what, SingleMetadataHandle.construct survey_4d = .error (.runtime_error what)) ∧
        ∀ handle, SingleMetadataHandle.construct survey_4d ≠ .ok handle) :=
  ⟨by decide, C7_dimensionality_rejected survey_4d (by decide)⟩

/-- C8. For a 3-dimensional layout whose inline, crossline and sample axes
resolve by name: if the inline axis has fewer than 2 samples the constructor
throws the runtime error naming inLines with that count; otherwise, if the
crossline axis has fewer than 2, the one naming crossLines; otherwise, if the
sample axis has fewer than 2, the one naming samples. Hence every handle that
the constructor returns has at least 2 samples on each of its three axes. -/
theorem C8_too_few_samples (layout : VolumeDataLayout) :
    (∀ di dx ds : Int, layout.GetDimensionality = 3 →
      SingleMetadataHandle.get_dimension layout [KnownAxisNames.Inline] = .ok di →
      SingleMetadataHandle.get_dimension layout [KnownAxisNames.Crossline] = .ok dx →
      SingleMetadataHandle.get_dimension layout
        [KnownAxisNames.Sample, KnownAxisNames.Depth, KnownAxisNames.Time] = .ok ds →
      ((make_single_cube_axis layout di).nsamples < 2 →
        SingleMetadataHandle.construct layout = .error (.runtime_error
          ("Unsupported VDS, expect at least two inLines, got " ++
            toString (make_single_cube_axis layout di).nsamples))) ∧
      (2 ≤ (make_single_cube_axis layout di).nsamples →
        (make_single_cube_axis layout dx).nsamples < 2 →
        SingleMetadataHandle.construct layout = .error (.runtime_error
          ("Unsupported VDS, expect at least two crossLines, got " ++
            toString (make_single_cube_axis layout dx).nsamples))) ∧
      (2 ≤ (make_single_cube_axis layout di).nsamples →
        2 ≤ (make_single_cube_axis layout dx).nsamples →
        (make_single_cube_axis layout ds).nsamples < 2 →
        SingleMetadataHandle.construct layout = .error (.runtime_error
          ("Unsupported VDS, expect at least two samples, got " ++
            toString (make_single_cube_axis layout ds).nsamples)))) ∧
    (∀ handle, SingleMetadataHandle.construct layout = .ok handle →
      2 ≤ handle.iline.nsamples ∧ 2 ≤ handle.xline.nsamples ∧ 2 ≤ handle.sample.nsamples) := by
  refine ⟨?_, ?_⟩
  · intro di dx ds h3 hi hx hs
    have hc := SingleMetadataHandle.construct_resolved layout di dx ds hi hx hs
    rw [if_neg (not_not.mpr h3)] at hc
    refine ⟨?_, ?_, ?_⟩
    · intro h1
      rw [hc, if_pos h1]
    · intro h1 h2
      rw [hc, if_neg (not_lt.mpr h1), if_pos h2]
    · intro h1 h2 h4
      rw [hc, if_neg (not_lt.mpr h1), if_neg (not_lt.mpr h2), if_pos h4]
  · intro handle hh
    obtain ⟨_, _, _, _, _, _, _, _, h1, h2, h4⟩ :=
      SingleMetadataHandle.construct_ok layout handle hh
    exact ⟨h1, h2, h4⟩

/-- C8 on a layout whose inline axis has a single sample. -/
theorem C8_too_few_samples_witness :
    SingleMetadataHandle.construct (survey 0 0 1) =
      .error (.runtime_error "Unsupported VDS, expect at least two inLines, got 1") :=
  ((C8_too_few_samples (survey 0 0 1)).1 0 1 2 rfl rfl rfl rfl).1 (by decide)

/-- C9. On a constructed handle `get_axis(direction)` returns `iline()`,
`xline()` and `sample()` for the three directions, `get_axis(int)` applied to
the stored dimension index of each of the three axes returns that axis, and
the three stored dimension indices are pairwise distinct. -/
theorem C9_get_axis (layout : VolumeDataLayout) (handle : SingleMetadataHandle)
    (h : SingleMetadataHandle.construct layout = .ok handle) :
    handle.get_axis Direction.inline = .ok handle.iline ∧
    handle.get_axis Direction.crossline = .ok handle.xline ∧
    handle.get_axis Direction.sample = .ok handle.sample ∧
    handle.get_axis_int handle.iline.dimension = .ok handle.iline ∧
    handle.get_axis_int handle.xline.dimension = .ok handle.xline ∧
    handle.get_axis_int handle.sample.dimension = .ok handle.sample ∧
    handle.iline.dimension ≠ handle.xline.dimension ∧
    handle.iline.dimension ≠ handle.sample.dimension ∧
    handle.xline.dimension ≠ handle.sample.dimension := by
  obtain ⟨di, dx, ds, hi, hx, hs, -, hh, -, -, -⟩ :=
    SingleMetadataHandle.construct_ok layout handle h
  obtain ⟨-, -, hni, -⟩ := SingleMetadataHandle.get_dimension_ok _ _ _ hi
  obtain ⟨-, -, hnx, -⟩ := SingleMetadataHandle.get_dimension_ok _ _ _ hx
  obtain ⟨-, -, hns, -⟩ := SingleMetadataHandle.get_dimension_ok _ _ _ hs
  have hix : di ≠ dx := by
    intro he; subst he
    simp only [List.mem_singleton] at hni hnx
    rw [hni] at hnx
    exact absurd hnx (by decide)
  have his : di ≠ ds := by
    intro he; subst he
    simp only [List.mem_singleton, List.mem_cons, List.not_mem_nil, or_false] at hni hns
    rw [hni] at hns
    exact absurd hns (by decide)
  have hxs : dx ≠ ds := by
    intro he; subst he
    simp only [List.mem_singleton, List.mem_cons, List.not_mem_nil, or_false] at hnx hns
    rw [hnx] at hns
    exact absurd hns (by decide)
  subst hh
  refine ⟨rfl, rfl, rfl, ?_, ?_, ?_, hix, his, hxs⟩
  · simp [SingleMetadataHandle.get_axis_int, SingleMetadataHandle.iline, make_single_cube_axis]
  · simp [SingleMetadataHandle.get_axis_int, SingleMetadataHandle.iline,
      SingleMetadataHandle.xline, make_single_cube_axis, hix]
  · simp [SingleMetadataHandle.get_axis_int, SingleMetadataHandle.iline,
      SingleMetadataHandle.xline, SingleMetadataHandle.sample, make_single_cube_axis, his, hxs]

/-- C9 on the handle of `survey 0 100 101`. -/
theorem C9_get_axis_witness :
    (survey_handle 0 100 101).get_axis_int 2 = .ok ⟨0, 40, 11, "Sample", "ms", 2⟩ ∧
    (survey_handle 0 100 101).get_axis Direction.crossline =
      .ok ⟨0, 10, 11, "Crossline", "unitless", 1⟩ :=
  have h := C9_get_axis (survey 0 100 101) (survey_handle 0 100 101) rfl
  ⟨h.2.2.2.2.2.1, h.2.1⟩

/-! ### The constructor of the double handle -/

/-- The two outcomes of `make_double_cube_axis` once both axes are found. -/
theorem make_double_cube_axis_cases (ext : Externals)
    (metadata_a metadata_b : SingleMetadataHandle) (dimension : Int) (axis_a axis_b : Axis)
    (ha : metadata_a.get_axis_int dimension = .ok axis_a)
    (hb : metadata_b.get_axis_int dimension = .ok axis_b) :
    (axis_a.reconcilable axis_b ∧
      make_double_cube_axis ext metadata_a metadata_b dimension =
        .ok { min := Max.max axis_a.min axis_b.min, max := Min.min axis_a.max axis_b.max,
              nsamples := intersection_nsamples ext axis_a axis_b,
              name := axis_a.name, unit := axis_a.unit, dimension := dimension }) ∨
    (¬ axis_a.reconcilable axis_b ∧
      ∃ what, make_double_cube_axis ext metadata_a metadata_b dimension =
        .error (.bad_request what)) := by
  by_cases hname : axis_a.name = axis_b.name
  · by_cases hunit : axis_a.unit = axis_b.unit
    · by_cases hstep : axis_a.stepsize = axis_b.stepsize
      · exact Or.inl ⟨⟨hname, hunit, hstep⟩,
          make_double_cube_axis_ok ext _ _ _ _ _ ha hb hname hunit hstep⟩
      · refine Or.inr ⟨fun h => hstep h.2.2, ?_⟩
        simp only [make_double_cube_axis, ha, hb, hname, hunit, hstep, bind, Except.bind,
          throw, throwThe, MonadExceptOf.throw, pure, Except.pure, ne_eq, not_true_eq_false,
          not_false_eq_true, if_true, if_false]
        exact ⟨_, rfl⟩
    · refine Or.inr ⟨fun h => hunit h.2.1, ?_⟩
      simp only [make_double_cube_axis, ha, hb, hname, hunit, bind, Except.bind,
        throw, throwThe, MonadExceptOf.throw, pure, Except.pure, ne_eq, not_true_eq_false,
        not_false_eq_true, if_true, if_false]
      exact ⟨_, rfl⟩
  · refine Or.inr ⟨fun h => hname h.1, ?_⟩
    simp only [make_double_cube_axis, ha, hb, hname, bind, Except.bind,
      throw, throwThe, MonadExceptOf.throw, pure, Except.pure, ne_eq,
      not_false_eq_true, if_true]
    exact ⟨_, rfl⟩

/-- The constructor once the composite layout is built and the inline axis
failed to reconcile. -/
theorem DoubleMetadataHandle.construct_iline_error (ext : Externals)
    (layout_a layout_b : VolumeDataLayout) (metadata_a metadata_b : SingleMetadataHandle)
    (binary_symbol : binary_operator) (m_layout : DoubleVolumeDataLayout) (di : Int)
    (e : Exception)
    (hl : ext.DoubleVolumeDataLayout_construct layout_a layout_b = .ok m_layout)
    (hdi : DoubleMetadataHandle.get_dimension m_layout [KnownAxisNames.Inline] = .ok di)
    (hri : make_double_cube_axis ext metadata_a metadata_b di = .error e) :
    DoubleMetadataHandle.construct ext layout_a layout_b metadata_a metadata_b binary_symbol =
      .error e := by
  simp only [DoubleMetadataHandle.construct, hl, hdi, hri, bind, Except.bind]

/-- The same for the crossline axis, the inline axis being reconciled. -/
theorem DoubleMetadataHandle.construct_xline_error (ext : Externals)
    (layout_a layout_b : VolumeDataLayout) (metadata_a metadata_b : SingleMetadataHandle)
    (binary_symbol : binary_operator) (m_layout : DoubleVolumeDataLayout) (di dx : Int)
    (ri : Axis) (e : Exception)
    (hl : ext.DoubleVolumeDataLayout_construct layout_a layout_b = .ok m_layout)
    (hdi : DoubleMetadataHandle.get_dimension m_layout [KnownAxisNames.Inline] = .ok di)
    (hri : make_double_cube_axis ext metadata_a metadata_b di = .ok ri)
    (hdx : DoubleMetadataHandle.get_dimension m_layout [KnownAxisNames.Crossline] = .ok dx)
    (hrx : make_double_cube_axis ext metadata_a metadata_b dx = .error e) :
    DoubleMetadataHandle.construct ext layout_a layout_b metadata_a metadata_b binary_symbol =
      .error e := by
  simp only [DoubleMetadataHandle.construct, hl, hdi, hri, hdx, hrx, bind, Except.bind]

/-- The same for the sample axis, the other two being reconciled. -/
theorem DoubleMetadataHandle.construct_sample_error (ext : Externals)
    (layout_a layout_b : VolumeDataLayout) (metadata_a metadata_b : SingleMetadataHandle)
    (binary_symbol : binary_operator) (m_layout : DoubleVolumeDataLayout) (di dx ds : Int)
    (ri rx : Axis) (e : Exception)
    (hl : ext.DoubleVolumeDataLayout_construct layout_a layout_b = .ok m_layout)
    (hdi : DoubleMetadataHandle.get_dimension m_layout [KnownAxisNames.Inline] = .ok di)
    (hri : make_double_cube_axis ext metadata_a metadata_b di = .ok ri)
    (hdx : DoubleMetadataHandle.get_dimension m_layout [KnownAxisNames.Crossline] = .ok dx)
    (hrx : make_double_cube_axis ext metadata_a metadata_b dx = .ok rx)
    (hds : DoubleMetadataHandle.get_dimension m_layout
      [KnownAxisNames.Sample, KnownAxisNames.Depth, KnownAxisNames.Time] = .ok ds)
    (hrs : make_double_cube_axis ext metadata_a metadata_b ds = .error e) :
    DoubleMetadataHandle.construct ext layout_a layout_b metadata_a metadata_b binary_symbol =
      .error e := by
  simp only [DoubleMetadataHandle.construct, hl, hdi, hri, hdx, hrx, hds, hrs, bind, Except.bind]

/-- The constructor once the composite layout is built and the three axes
are reconciled: the validation of the body, in order. -/
theorem DoubleMetadataHandle.construct_reconciled (ext : Externals)
    (layout_a layout_b : VolumeDataLayout) (metadata_a metadata_b : SingleMetadataHandle)
    (binary_symbol : binary_operator) (m_layout : DoubleVolumeDataLayout) (di dx ds : Int)
    (ri rx rs : Axis)
    (hl : ext.DoubleVolumeDataLayout_construct layout_a layout_b = .ok m_layout)
    (hdi : DoubleMetadataHandle.get_dimension m_layout [KnownAxisNames.Inline] = .ok di)
    (hri : make_double_cube_axis ext metadata_a metadata_b di = .ok ri)
    (hdx : DoubleMetadataHandle.get_dimension m_layout [KnownAxisNames.Crossline] = .ok dx)
    (hrx : make_double_cube_axis ext metadata_a metadata_b dx = .ok rx)
    (hds : DoubleMetadataHandle.get_dimension m_layout
      [KnownAxisNames.Sample, KnownAxisNames.Depth, KnownAxisNames.Time] = .ok ds)
    (hrs : make_double_cube_axis ext metadata_a metadata_b ds = .ok rs) :
    DoubleMetadataHandle.construct ext layout_a layout_b metadata_a metadata_b binary_symbol =
      if m_layout.GetDimensionality ≠ 3 then
        .error (.runtime_error
          ("Unsupported VDS, expected 3 dimensions, got " ++ toString m_layout.GetDimensionality))
      else if ri.nsamples < 2 then
        .error (.runtime_error
          ("Unsupported VDS pair, expect that the intersection contains at least two inLines, got "
            ++ toString ri.nsamples))
      else if rx.nsamples < 2 then
        .error (.runtime_error
          ("Unsupported VDS pair, expect that the intersection contains at least two crossLines, got "
            ++ toString rx.nsamples))
      else if rs.nsamples < 2 then
        .error (.runtime_error
          ("Unsupported VDS pair, expect that the intersection contains at least two samples, got "
            ++ toString rs.nsamples))
      else .ok { m_layout := m_layout, m_metadata_a := metadata_a, m_metadata_b := metadata_b,
                 m_binary_symbol := binary_symbol, m_iline := ri, m_xline := rx,
                 m_sample := rs } := by
  simp only [DoubleMetadataHandle.construct, hl, hdi, hri, hdx, hrx, hds, hrs, bind,
    Except.bind, DoubleMetadataHandle.dimension_validation]
  split_ifs <;> rfl

/-- C3. Two constructed single-cube handles, a composite layout that was
built and on which the inline, crossline and sample dimensions resolve, both
handles holding an axis at each resolved index. If for at least one of the
three the names, the units or the step sizes of the two axes differ, the
constructor of `DoubleMetadataHandle` throws a `bad_request`, never a
`runtime_error`, whatever the sample counts of the other intersections. -/
theorem C3_mismatch_is_bad_request (ext : Externals)
    (layout_a layout_b : VolumeDataLayout) (metadata_a metadata_b : SingleMetadataHandle)
    (binary_symbol : binary_operator) (m_layout : DoubleVolumeDataLayout) (di dx ds : Int)
    (ai bi ax bx as bs : Axis)
    (_hva : SingleMetadataHandle.construct layout_a = .ok metadata_a)
    (_hvb : SingleMetadataHandle.construct layout_b = .ok metadata_b)
    (hl : ext.DoubleVolumeDataLayout_construct layout_a layout_b = .ok m_layout)
    (hdi : DoubleMetadataHandle.get_dimension m_layout [KnownAxisNames.Inline] = .ok di)
    (hdx : DoubleMetadataHandle.get_dimension m_layout [KnownAxisNames.Crossline] = .ok dx)
    (hds : DoubleMetadataHandle.get_dimension m_layout
      [KnownAxisNames.Sample, KnownAxisNames.Depth, KnownAxisNames.Time] = .ok ds)
    (hai : metadata_a.get_axis_int di = .ok ai) (hbi : metadata_b.get_axis_int di = .ok bi)
    (hax : metadata_a.get_axis_int dx = .ok ax) (hbx : metadata_b.get_axis_int dx = .ok bx)
    (has : metadata_a.get_axis_int ds = .ok as) (hbs : metadata_b.get_axis_int ds = .ok bs)
    (hmis : ¬ ai.reconcilable bi ∨ ¬ ax.reconcilable bx ∨ ¬ as.reconcilable bs) :
    ∃ what,
      DoubleMetadataHandle.construct ext layout_a layout_b metadata_a metadata_b binary_symbol =
        .error (.bad_request what) := by
  rcases make_double_cube_axis_cases ext metadata_a metadata_b di ai bi hai hbi with
    ⟨hci, hri⟩ | ⟨-, what, hri⟩
  swap
  · exact ⟨what, DoubleMetadataHandle.construct_iline_error ext _ _ _ _ _ _ _ _ hl hdi hri⟩
  rcases make_double_cube_axis_cases ext metadata_a metadata_b dx ax bx hax hbx with
    ⟨hcx, hrx⟩ | ⟨-, what, hrx⟩
  swap
  · exact ⟨what,
      DoubleMetadataHandle.construct_xline_error ext _ _ _ _ _ _ _ _ _ _ hl hdi hri hdx hrx⟩
  rcases make_double_cube_axis_cases ext metadata_a metadata_b ds as bs has hbs with
    ⟨hcs, hrs⟩ | ⟨-, what, hrs⟩
  swap
  · exact ⟨what, DoubleMetadataHandle.construct_sample_error ext _ _ _ _ _ _ _ _ _ _ _ _
      hl hdi hri hdx hrx hds hrs⟩
  rcases hmis with h | h | h
  · exact absurd hci h
  · exact absurd hcx h
  · exact absurd hcs h

/-- Truncation of a value of at most one is at most one. -/
theorem float_to_int_le_one (x : ℚ) (h : x ≤ 1) : float_to_int x ≤ 1 := by
  unfold float_to_int
  split_ifs with h0
  · have : ((⌊x⌋ : Int) : ℚ) ≤ 1 := le_trans (Int.floor_le x) h
    exact_mod_cast this
  · have hx : x ≤ ((0 : Int) : ℚ) := by push_cast; linarith
    have := Int.ceil_le.mpr hx
    omega

/-- An empty or single-point overlap on a step of at least one gives at most
one sample. -/
theorem intersection_nsamples_degenerate (ext : Externals) (axis_a axis_b : Axis)
    (hd : 1 ≤ float_to_int axis_a.stepsize)
    (hov : Min.min axis_a.max axis_b.max ≤ Max.max axis_a.min axis_b.min) :
    intersection_nsamples ext axis_a axis_b ≤ 1 := by
  have hd0 : float_to_int axis_a.stepsize ≠ 0 := by omega
  simp only [intersection_nsamples, hd0, if_false]
  apply float_to_int_le_one
  have hpos : (0 : ℚ) < ((float_to_int axis_a.stepsize : Int) : ℚ) := by
    have : (0 : Int) < float_to_int axis_a.stepsize := by omega
    exact_mod_cast this
  have : (Min.min axis_a.max axis_b.max - Max.max axis_a.min axis_b.min) /
      ((float_to_int axis_a.stepsize : Int) : ℚ) ≤ 0 :=
    div_nonpos_of_nonpos_of_nonneg (by linarith) hpos.le
  linarith

/-- Where the rejection of a degenerate intersection works whatever a
non-finite float converts to. Two constructed handles whose three axes pass
the name, unit and step-size checks. If on one of the three axes the step
size truncates to an `int` of at least 1 and the overlap is empty or a single
point (`min(A.max, B.max) <= max(A.min, B.min)`), the constructor of
`DoubleMetadataHandle` throws a `runtime_error` and returns no handle. -/
theorem degenerate_overlap_rejected (ext : Externals)
    (layout_a layout_b : VolumeDataLayout) (metadata_a metadata_b : SingleMetadataHandle)
    (binary_symbol : binary_operator) (m_layout : DoubleVolumeDataLayout) (di dx ds : Int)
    (ai bi ax bx as bs : Axis)
    (_hva : SingleMetadataHandle.construct layout_a = .ok metadata_a)
    (_hvb : SingleMetadataHandle.construct layout_b = .ok metadata_b)
    (hl : ext.DoubleVolumeDataLayout_construct layout_a layout_b = .ok m_layout)
    (hdi : DoubleMetadataHandle.get_dimension m_layout [KnownAxisNames.Inline] = .ok di)
    (hdx : DoubleMetadataHandle.get_dimension m_layout [KnownAxisNames.Crossline] = .ok dx)
    (hds : DoubleMetadataHandle.get_dimension m_layout
      [KnownAxisNames.Sample, KnownAxisNames.Depth, KnownAxisNames.Time] = .ok ds)
    (hai : metadata_a.get_axis_int di = .ok ai) (hbi : metadata_b.get_axis_int di = .ok bi)
    (hax : metadata_a.get_axis_int dx = .ok ax) (hbx : metadata_b.get_axis_int dx = .ok bx)
    (has : metadata_a.get_axis_int ds = .ok as) (hbs : metadata_b.get_axis_int ds = .ok bs)
    (hci : ai.reconcilable bi) (hcx : ax.reconcilable bx) (hcs : as.reconcilable bs)
    (hdeg :
      (1 ≤ float_to_int ai.stepsize ∧ Min.min ai.max bi.max ≤ Max.max ai.min bi.min) ∨
      (1 ≤ float_to_int ax.stepsize ∧ Min.min ax.max bx.max ≤ Max.max ax.min bx.min) ∨
      (1 ≤ float_to_int as.stepsize ∧ Min.min as.max bs.max ≤ Max.max as.min bs.min)) :
    (∃ what,
      DoubleMetadataHandle.construct ext layout_a layout_b metadata_a metadata_b binary_symbol =
        .error (.runtime_error what)) ∧
    ∀ handle,
      DoubleMetadataHandle.construct ext layout_a layout_b metadata_a metadata_b binary_symbol ≠
        .ok handle := by
  have hri := make_double_cube_axis_ok ext _ _ _ _ _ hai hbi hci.1 hci.2.1 hci.2.2
  have hrx := make_double_cube_axis_ok ext _ _ _ _ _ hax hbx hcx.1 hcx.2.1 hcx.2.2
  have hrs := make_double_cube_axis_ok ext _ _ _ _ _ has hbs hcs.1 hcs.2.1 hcs.2.2
  have hc := DoubleMetadataHandle.construct_reconciled ext layout_a layout_b metadata_a
    metadata_b binary_symbol m_layout di dx ds _ _ _ hl hdi hri hdx hrx hds hrs
  have key : ∃ what,
      DoubleMetadataHandle.construct ext layout_a layout_b metadata_a metadata_b binary_symbol =
        .error (.runtime_error what) := by
    rw [hc]
    split_ifs with h3 h1 h2 h4
    · exact ⟨_, rfl⟩
    · exact ⟨_, rfl⟩
    · exact ⟨_, rfl⟩
    · exact ⟨_, rfl⟩
    · exfalso
      simp only [not_lt] at h1 h2 h4
      rcases hdeg with ⟨hd, hov⟩ | ⟨hd, hov⟩ | ⟨hd, hov⟩
      · have := intersection_nsamples_degenerate ext ai bi hd hov
        omega
      · have := intersection_nsamples_degenerate ext ax bx hd hov
        omega
      · have := intersection_nsamples_degenerate ext as bs hd hov
        omega
  refine ⟨key, ?_⟩
  intro handle hh
  obtain ⟨what, hw⟩ := key
  rw [hw] at hh
  cases hh

/-- An empty or single-point overlap on a step that truncates to zero or more
gives fewer than 2 samples, when the conversion of a non-finite float to `int`
gives a value below 2 (`INT_MIN` on x86-64). -/
theorem intersection_nsamples_degenerate_not_descending (ext : Externals)
    (axis_a axis_b : Axis)
    (hconv : ∀ x : ℚ, ext.nonfinite_to_int x < 2)
    (hd : 0 ≤ float_to_int axis_a.stepsize)
    (hov : Min.min axis_a.max axis_b.max ≤ Max.max axis_a.min axis_b.min) :
    intersection_nsamples ext axis_a axis_b < 2 := by
  by_cases h0 : float_to_int axis_a.stepsize = 0
  · simp only [intersection_nsamples, h0, if_true]
    exact hconv _
  · have := intersection_nsamples_degenerate ext axis_a axis_b (by omega) hov
    omega

/-- Where the rejection of a degenerate intersection works. Two constructed
handles whose three axes pass the name, unit and step-size checks, and a
conversion of non-finite floats that gives a value below 2. If on one of the
three axes the step size does not truncate to a negative `int` (every
ascending axis) and the overlap is empty or a single point, the constructor
of `DoubleMetadataHandle` throws a `runtime_error` and returns no handle. -/
theorem degenerate_overlap_rejected_not_descending (ext : Externals)
    (layout_a layout_b : VolumeDataLayout) (metadata_a metadata_b : SingleMetadataHandle)
    (binary_symbol : binary_operator) (m_layout : DoubleVolumeDataLayout) (di dx ds : Int)
    (ai bi ax bx as bs : Axis)
    (hconv : ∀ x : ℚ, ext.nonfinite_to_int x < 2)
    (hl : ext.DoubleVolumeDataLayout_construct layout_a layout_b = .ok m_layout)
    (hdi : DoubleMetadataHandle.get_dimension m_layout [KnownAxisNames.Inline] = .ok di)
    (hdx : DoubleMetadataHandle.get_dimension m_layout [KnownAxisNames.Crossline] = .ok dx)
    (hds : DoubleMetadataHandle.get_dimension m_layout
      [KnownAxisNames.Sample, KnownAxisNames.Depth, KnownAxisNames.Time] = .ok ds)
    (hai : metadata_a.get_axis_int di = .ok ai) (hbi : metadata_b.get_axis_int di = .ok bi)
    (hax : metadata_a.get_axis_int dx = .ok ax) (hbx : metadata_b.get_axis_int dx = .ok bx)
    (has : metadata_a.get_axis_int ds = .ok as) (hbs : metadata_b.get_axis_int ds = .ok bs)
    (hci : ai.reconcilable bi) (hcx : ax.reconcilable bx) (hcs : as.reconcilable bs)
    (hdeg :
      (0 ≤ float_to_int ai.stepsize ∧ Min.min ai.max bi.max ≤ Max.max ai.min bi.min) ∨
      (0 ≤ float_to_int ax.stepsize ∧ Min.min ax.max bx.max ≤ Max.max ax.min bx.min) ∨
      (0 ≤ float_to_int as.stepsize ∧ Min.min as.max bs.max ≤ Max.max as.min bs.min)) :
    (∃ what,
      DoubleMetadataHandle.construct ext layout_a layout_b metadata_a metadata_b binary_symbol =
        .error (.runtime_error what)) ∧
    ∀ handle,
      DoubleMetadataHandle.construct ext layout_a layout_b metadata_a metadata_b binary_symbol ≠
        .ok handle := by
  have hri := make_double_cube_axis_ok ext _ _ _ _ _ hai hbi hci.1 hci.2.1 hci.2.2
  have hrx := make_double_cube_axis_ok ext _ _ _ _ _ hax hbx hcx.1 hcx.2.1 hcx.2.2
  have hrs := make_double_cube_axis_ok ext _ _ _ _ _ has hbs hcs.1 hcs.2.1 hcs.2.2
  have hc := DoubleMetadataHandle.construct_reconciled ext layout_a layout_b metadata_a
    metadata_b binary_symbol m_layout di dx ds _ _ _ hl hdi hri hdx hrx hds hrs
  have key : ∃ what,
      DoubleMetadataHandle.construct ext layout_a layout_b metadata_a metadata_b binary_symbol =
        .error (.runtime_error what) := by
    rw [hc]
    split_ifs with h3 h1 h2 h4
    · exact ⟨_, rfl⟩
    · exact ⟨_, rfl⟩
    · exact ⟨_, rfl⟩
    · exact ⟨_, rfl⟩
    · exfalso
      rcases hdeg with ⟨hd, hov⟩ | ⟨hd, hov⟩ | ⟨hd, hov⟩
      · exact h1 (intersection_nsamples_degenerate_not_descending ext ai bi hconv hd hov)
      · exact h2 (intersection_nsamples_degenerate_not_descending ext ax bx hconv hd hov)
      · exact h4 (intersection_nsamples_degenerate_not_descending ext as bs hconv hd hov)
  refine ⟨key, ?_⟩
  intro handle hh
  obtain ⟨what, hw⟩ := key
  rw [hw] at hh
  cases hh

/-- C5. The composite layout is built and has dimensionality 3, and the three
axes are reconciled. If the inline intersection has fewer than 2 samples the
constructor throws the runtime error "... expect that the intersection
contains at least two inLines, got N" with its count N; otherwise, if the
crossline intersection has fewer than 2, the one for crossLines; otherwise,
if the sample intersection has fewer than 2, the one for samples. -/
theorem C5_intersection_too_small (ext : Externals)
    (layout_a layout_b : VolumeDataLayout) (metadata_a metadata_b : SingleMetadataHandle)
    (binary_symbol : binary_operator) (m_layout : DoubleVolumeDataLayout) (di dx ds : Int)
    (ri rx rs : Axis)
    (hl : ext.DoubleVolumeDataLayout_construct layout_a layout_b = .ok m_layout)
    (hdi : DoubleMetadataHandle.get_dimension m_layout [KnownAxisNames.Inline] = .ok di)
    (hri : make_double_cube_axis ext metadata_a metadata_b di = .ok ri)
    (hdx : DoubleMetadataHandle.get_dimension m_layout [KnownAxisNames.Crossline] = .ok dx)
    (hrx : make_double_cube_axis ext metadata_a metadata_b dx = .ok rx)
    (hds : DoubleMetadataHandle.get_dimension m_layout
      [KnownAxisNames.Sample, KnownAxisNames.Depth, KnownAxisNames.Time] = .ok ds)
    (hrs : make_double_cube_axis ext metadata_a metadata_b ds = .ok rs)
    (h3 : m_layout.GetDimensionality = 3) :
    (ri.nsamples < 2 →
      DoubleMetadataHandle.construct ext layout_a layout_b metadata_a metadata_b binary_symbol =
        .error (.runtime_error
          ("Unsupported VDS pair, expect that the intersection contains at least two inLines, got "
            ++ toString ri.nsamples))) ∧
    (2 ≤ ri.nsamples → rx.nsamples < 2 →
      DoubleMetadataHandle.construct ext layout_a layout_b metadata_a metadata_b binary_symbol =
        .error (.runtime_error
          ("Unsupported VDS pair, expect that the intersection contains at least two crossLines, got "
            ++ toString rx.nsamples))) ∧
    (2 ≤ ri.nsamples → 2 ≤ rx.nsamples → rs.nsamples < 2 →
      DoubleMetadataHandle.construct ext layout_a layout_b metadata_a metadata_b binary_symbol =
        .error (.runtime_error
          ("Unsupported VDS pair, expect that the intersection contains at least two samples, got "
            ++ toString rs.nsamples))) := by
  have hc := DoubleMetadataHandle.construct_reconciled ext layout_a layout_b metadata_a
    metadata_b binary_symbol m_layout di dx ds ri rx rs hl hdi hri hdx hrx hds hrs
  rw [if_neg (not_not.mpr h3)] at hc
  refine ⟨?_, ?_, ?_⟩
  · intro h1
    rw [hc, if_pos h1]
  · intro h1 h2
    rw [hc, if_neg (not_lt.mpr h1), if_pos h2]
  · intro h1 h2 h4
    rw [hc, if_neg (not_lt.mpr h1), if_neg (not_lt.mpr h2), if_pos h4]

/-! ### Evaluation on the test inputs -/

/-- The cast `(int) 1.0` gives 1. -/
theorem float_to_int_one : float_to_int 1 = 1 := by
  exact_mod_cast float_to_int_intCast 1

/-- Evaluation of `make_double_cube_axis` on two reconcilable axes whose common
step is a nonzero integer `k`. -/
theorem make_double_cube_axis_eval (ext : Externals)
    (metadata_a metadata_b : SingleMetadataHandle) (dimension : Int) (axis_a axis_b : Axis)
    (k n : Int) (lo hi : ℚ)
    (ha : metadata_a.get_axis_int dimension = .ok axis_a)
    (hb : metadata_b.get_axis_int dimension = .ok axis_b)
    (hc : axis_a.reconcilable axis_b)
    (hk : axis_a.stepsize = (k : ℚ)) (hk0 : k ≠ 0)
    (hlo : Max.max axis_a.min axis_b.min = lo) (hhi : Min.min axis_a.max axis_b.max = hi)
    (hn : 1 + (hi - lo) / (k : ℚ) = (n : ℚ)) :
    make_double_cube_axis ext metadata_a metadata_b dimension =
      .ok ⟨lo, hi, n, axis_a.name, axis_a.unit, dimension⟩ := by
  rw [make_double_cube_axis_ok ext _ _ _ _ _ ha hb hc.1 hc.2.1 hc.2.2]
  have hf : float_to_int axis_a.stepsize = k := by rw [hk]; exact float_to_int_intCast k
  have hns : intersection_nsamples ext axis_a axis_b = n := by
    simp only [intersection_nsamples, hf, hk0, if_false, hlo, hhi, hn]
    exact float_to_int_intCast n
  rw [hns, hlo, hhi]

/-- The crossline axes of the test cubes reconcile to themselves. -/
theorem survey_crossline_reconciled (ext : Externals) (ma mb : SingleMetadataHandle)
    (ha : ma.get_axis_int 1 = .ok ⟨0, 10, 11, "Crossline", "unitless", 1⟩)
    (hb : mb.get_axis_int 1 = .ok ⟨0, 10, 11, "Crossline", "unitless", 1⟩) :
    make_double_cube_axis ext ma mb 1 = .ok ⟨0, 10, 11, "Crossline", "unitless", 1⟩ :=
  make_double_cube_axis_eval ext ma mb 1 _ _ 1 11 0 10 ha hb ⟨rfl, rfl, rfl⟩
    (by norm_num [Axis.stepsize]) (by decide) (by norm_num) (by norm_num) (by norm_num)

/-- The sample axes of the test cubes reconcile to themselves. -/
theorem survey_sample_reconciled (ext : Externals) (ma mb : SingleMetadataHandle)
    (ha : ma.get_axis_int 2 = .ok ⟨0, 40, 11, "Sample", "ms", 2⟩)
    (hb : mb.get_axis_int 2 = .ok ⟨0, 40, 11, "Sample", "ms", 2⟩) :
    make_double_cube_axis ext ma mb 2 = .ok ⟨0, 40, 11, "Sample", "ms", 2⟩ :=
  make_double_cube_axis_eval ext ma mb 2 _ _ 4 11 0 40 ha hb ⟨rfl, rfl, rfl⟩
    (by norm_num [Axis.stepsize]) (by decide) (by norm_num) (by norm_num) (by norm_num)

/-- C3 on two cubes whose inline ranges meet in a single point (an intersection
of one sample) and whose third axes are named "Sample" and "Depth". -/
theorem C3_mismatch_is_bad_request_witness :
    ∃ what,
      DoubleMetadataHandle.construct test_externals (survey 0 100 101)
        (survey_depth 100 200 101) (survey_handle 0 100 101) (survey_depth_handle 100 200 101)
        binary_operator.ADDITION = .error (.bad_request what) :=
  C3_mismatch_is_bad_request test_externals (survey 0 100 101) (survey_depth 100 200 101)
    (survey_handle 0 100 101) (survey_depth_handle 100 200 101) binary_operator.ADDITION
    ⟨3, (survey 0 100 101).GetDimensionName, fun _ => 0, fun _ => 0⟩ 0 1 2
    ⟨0, 100, 101, "Inline", "unitless", 0⟩ ⟨100, 200, 101, "Inline", "unitless", 0⟩
    ⟨0, 10, 11, "Crossline", "unitless", 1⟩ ⟨0, 10, 11, "Crossline", "unitless", 1⟩
    ⟨0, 40, 11, "Sample", "ms", 2⟩ ⟨0, 40, 11, "Depth", "m", 2⟩
    rfl rfl rfl rfl rfl rfl rfl rfl rfl rfl rfl rfl
    (Or.inr (Or.inr (fun h => absurd h.1 (by decide))))

/-- The rejection on ascending inline ranges [0,100] and [150,250] of step 1,
which do not meet. -/
theorem degenerate_overlap_rejected_example :
    (∃ what,
      DoubleMetadataHandle.construct test_externals (survey 0 100 101) (survey 150 250 101)
        (survey_handle 0 100 101) (survey_handle 150 250 101) binary_operator.SUBTRACTION =
        .error (.runtime_error what)) ∧
    ∀ handle,
      DoubleMetadataHandle.construct test_externals (survey 0 100 101) (survey 150 250 101)
        (survey_handle 0 100 101) (survey_handle 150 250 101) binary_operator.SUBTRACTION ≠
        .ok handle :=
  degenerate_overlap_rejected test_externals (survey 0 100 101) (survey 150 250 101)
    (survey_handle 0 100 101) (survey_handle 150 250 101) binary_operator.SUBTRACTION
    ⟨3, (survey 0 100 101).GetDimensionName, fun _ => 0, fun _ => 0⟩ 0 1 2
    ⟨0, 100, 101, "Inline", "unitless", 0⟩ ⟨150, 250, 101, "Inline", "unitless", 0⟩
    ⟨0, 10, 11, "Crossline", "unitless", 1⟩ ⟨0, 10, 11, "Crossline", "unitless", 1⟩
    ⟨0, 40, 11, "Sample", "ms", 2⟩ ⟨0, 40, 11, "Sample", "ms", 2⟩
    rfl rfl rfl rfl rfl rfl rfl rfl rfl rfl rfl rfl
    ⟨rfl, rfl, by norm_num [Axis.stepsize]⟩ ⟨rfl, rfl, rfl⟩ ⟨rfl, rfl, rfl⟩
    (Or.inl ⟨by
      have hs : (⟨0, 100, 101, "Inline", "unitless", 0⟩ : Axis).stepsize = 1 := by
        norm_num [Axis.stepsize]
      rw [hs, float_to_int_one], by norm_num⟩)

/-- C4, the code at a failing input. Two cubes whose inline axes descend, A
from 100 to 0 and B from 300 to 200, in 101 samples each (step -1). Both
handles are constructed and the three axes pass the name, unit and step-size
checks. The inline ranges are disjoint (A lies in [0,100], B in [200,300]) and
the overlap is empty in the sense of the claim (`max(A.min, B.min) = 300 > 0 =
min(A.max, B.max)`), so the claim requires the construction to be rejected.
The constructor returns a handle whose inline axis runs from 300 to 0 with
`1 + (0 - 300) / (-1) = 301` samples: the check `nsamples < 2` of lines
194-199 does not see the empty intersection. -/
theorem C4_disjoint_descending_accepted :
    SingleMetadataHandle.construct (survey 100 0 101) = .ok (survey_handle 100 0 101) ∧
    SingleMetadataHandle.construct (survey 300 200 101) = .ok (survey_handle 300 200 101) ∧
    (survey_handle 100 0 101).m_iline.reconcilable (survey_handle 300 200 101).m_iline ∧
    (survey_handle 100 0 101).m_xline.reconcilable (survey_handle 300 200 101).m_xline ∧
    (survey_handle 100 0 101).m_sample.reconcilable (survey_handle 300 200 101).m_sample ∧
    Max.max (survey_handle 100 0 101).m_iline.min (survey_handle 100 0 101).m_iline.max <
      Min.min (survey_handle 300 200 101).m_iline.min (survey_handle 300 200 101).m_iline.max ∧
    Max.max (survey_handle 100 0 101).m_iline.min (survey_handle 300 200 101).m_iline.min >
      Min.min (survey_handle 100 0 101).m_iline.max (survey_handle 300 200 101).m_iline.max ∧
    ∃ handle,
      DoubleMetadataHandle.construct test_externals (survey 100 0 101) (survey 300 200 101)
        (survey_handle 100 0 101) (survey_handle 300 200 101) binary_operator.ADDITION =
        .ok handle ∧
      handle.m_iline = ⟨300, 0, 301, "Inline", "unitless", 0⟩ := by
  have hsa : (⟨100, 0, 101, "Inline", "unitless", 0⟩ : Axis).stepsize = ((-1 : Int) : ℚ) := by
    norm_num [Axis.stepsize]
  have hsb : (⟨300, 200, 101, "Inline", "unitless", 0⟩ : Axis).stepsize = ((-1 : Int) : ℚ) := by
    norm_num [Axis.stepsize]
  have hci : (⟨100, 0, 101, "Inline", "unitless", 0⟩ : Axis).reconcilable
      ⟨300, 200, 101, "Inline", "unitless", 0⟩ := ⟨rfl, rfl, hsa.trans hsb.symm⟩
  refine ⟨rfl, rfl, hci, ⟨rfl, rfl, rfl⟩, ⟨rfl, rfl, rfl⟩, ?_, ?_, ?_⟩
  · norm_num [survey_handle]
  · norm_num [survey_handle]
  · have hri : make_double_cube_axis test_externals (survey_handle 100 0 101)
        (survey_handle 300 200 101) 0 = .ok ⟨300, 0, 301, "Inline", "unitless", 0⟩ :=
      make_double_cube_axis_eval test_externals _ _ 0 ⟨100, 0, 101, "Inline", "unitless", 0⟩
        ⟨300, 200, 101, "Inline", "unitless", 0⟩ (-1) 301 300 0 rfl rfl hci
        hsa (by decide) (by norm_num) (by norm_num) (by norm_num)
    have hrx := survey_crossline_reconciled test_externals (survey_handle 100 0 101)
      (survey_handle 300 200 101) rfl rfl
    have hrs := survey_sample_reconciled test_externals (survey_handle 100 0 101)
      (survey_handle 300 200 101) rfl rfl
    have hc := DoubleMetadataHandle.construct_reconciled test_externals (survey 100 0 101)
      (survey 300 200 101) (survey_handle 100 0 101) (survey_handle 300 200 101)
      binary_operator.ADDITION ⟨3, (survey 100 0 101).GetDimensionName, fun _ => 0, fun _ => 0⟩
      0 1 2 _ _ _ rfl rfl hri rfl hrx rfl hrs
    exact ⟨_, hc, rfl⟩

/-- The rejection on ascending axes of step 0.004 with disjoint ranges. -/
theorem degenerate_overlap_rejected_fractional_step :
    ∃ what,
      DoubleMetadataHandle.construct test_externals (survey 0 (2 / 5) 101) (survey 1 (7 / 5) 101)
        (survey_handle 0 (2 / 5) 101) (survey_handle 1 (7 / 5) 101) binary_operator.ADDITION =
        .error (.runtime_error what) :=
  (degenerate_overlap_rejected_not_descending test_externals (survey 0 (2 / 5) 101)
    (survey 1 (7 / 5) 101) (survey_handle 0 (2 / 5) 101) (survey_handle 1 (7 / 5) 101)
    binary_operator.ADDITION
    ⟨3, (survey 0 (2 / 5) 101).GetDimensionName, fun _ => 0, fun _ => 0⟩ 0 1 2
    ⟨0, 2 / 5, 101, "Inline", "unitless", 0⟩ ⟨1, 7 / 5, 101, "Inline", "unitless", 0⟩
    ⟨0, 10, 11, "Crossline", "unitless", 1⟩ ⟨0, 10, 11, "Crossline", "unitless", 1⟩
    ⟨0, 40, 11, "Sample", "ms", 2⟩ ⟨0, 40, 11, "Sample", "ms", 2⟩
    (fun _ => show (-2147483648 : Int) < 2 by decide) rfl rfl rfl rfl rfl rfl rfl rfl rfl rfl
    ⟨rfl, rfl, by norm_num [Axis.stepsize]⟩ ⟨rfl, rfl, rfl⟩ ⟨rfl, rfl, rfl⟩
    (Or.inl ⟨by
      have hs : (⟨0, 2 / 5, 101, "Inline", "unitless", 0⟩ : Axis).stepsize = 1 / 250 := by
        norm_num [Axis.stepsize]
      rw [hs, float_to_int_of_nonneg _ (by norm_num)]
      exact Int.floor_nonneg.mpr (by norm_num), by norm_num⟩)).1

/-- C5 on inline ranges [0,100] and [100,200], which meet in one sample. -/
theorem C5_intersection_too_small_witness :
    DoubleMetadataHandle.construct test_externals (survey 0 100 101) (survey 100 200 101)
      (survey_handle 0 100 101) (survey_handle 100 200 101) binary_operator.ADDITION =
      .error (.runtime_error
        "Unsupported VDS pair, expect that the intersection contains at least two inLines, got 1") :=
  (C5_intersection_too_small test_externals (survey 0 100 101) (survey 100 200 101)
    (survey_handle 0 100 101) (survey_handle 100 200 101) binary_operator.ADDITION
    ⟨3, (survey 0 100 101).GetDimensionName, fun _ => 0, fun _ => 0⟩ 0 1 2
    ⟨100, 100, 1, "Inline", "unitless", 0⟩ ⟨0, 10, 11, "Crossline", "unitless", 1⟩
    ⟨0, 40, 11, "Sample", "ms", 2⟩ rfl rfl
    (make_double_cube_axis_eval test_externals _ _ 0 ⟨0, 100, 101, "Inline", "unitless", 0⟩
      ⟨100, 200, 101, "Inline", "unitless", 0⟩ 1 1 100 100 rfl rfl
      ⟨rfl, rfl, by norm_num [Axis.stepsize]⟩
      (by norm_num [Axis.stepsize]) (by decide) (by norm_num) (by norm_num) (by norm_num))
    rfl (survey_crossline_reconciled test_externals _ _ rfl rfl)
    rfl (survey_sample_reconciled test_externals _ _ rfl rfl) rfl).1 (by decide)

/-! ### The offset loops -/

/-- The inner loop after `m` iterations: the elements `v * dm .. v * dm + m - 1`
are written, every other element is untouched. -/
theorem inner_loop_apply (f : Nat → Nat → ℚ) (dm v : Nat) (data : Nat → ℚ) (k : Nat) :
    ∀ m : Nat, ((List.range m).foldl
        (fun data i => Function.update data (v * dm + i) (f v i)) data) k =
      if v * dm ≤ k ∧ k < v * dm + m then f v (k - v * dm) else data k := by
  intro m
  induction m with
  | zero =>
    have : ¬ (v * dm ≤ k ∧ k < v * dm + 0) := by omega
    rw [if_neg this]
    rfl
  | succ m ih =>
    rw [List.range_succ, List.foldl_append, List.foldl_cons, List.foldl_nil]
    by_cases hk : k = v * dm + m
    · subst hk
      have : v * dm ≤ v * dm + m ∧ v * dm + m < v * dm + (m + 1) := by omega
      rw [Function.update_same, if_pos this]
      congr 1
      omega
    · rw [Function.update_noteq hk, ih]
      by_cases h1 : v * dm ≤ k ∧ k < v * dm + m
      · have h2 : v * dm ≤ k ∧ k < v * dm + (m + 1) := by omega
        rw [if_pos h1, if_pos h2]
      · have h2 : ¬ (v * dm ≤ k ∧ k < v * dm + (m + 1)) := by omega
        rw [if_neg h1, if_neg h2]

/-- The two nested loops after `n` iterations of the outer one: element `k`
below `n * dm` holds the value written for voxel `k / dm`, dimension `k % dm`. -/
theorem nested_loop_apply (f : Nat → Nat → ℚ) (dm : Nat) (hdm : 0 < dm) (data : Nat → ℚ)
    (k : Nat) :
    ∀ n : Nat, ((List.range n).foldl (fun data v =>
        (List.range dm).foldl (fun data i => Function.update data (v * dm + i) (f v i)) data)
        data) k =
      if k < n * dm then f (k / dm) (k % dm) else data k := by
  intro n
  induction n with
  | zero => simp
  | succ n ih =>
    rw [List.range_succ, List.foldl_append, List.foldl_cons, List.foldl_nil, inner_loop_apply, ih]
    by_cases h1 : n * dm ≤ k ∧ k < n * dm + dm
    · have h2 : k < (n + 1) * dm := by rw [Nat.add_mul, Nat.one_mul]; exact h1.2
      have hdiv : k / dm = n := by
        apply Nat.div_eq_of_lt_le
        · exact h1.1
        · rw [Nat.succ_mul]; exact h1.2
      have hmod : k % dm = k - n * dm := by
        have := Nat.div_add_mod k dm
        rw [hdiv, Nat.mul_comm] at this
        omega
      rw [if_pos h1, if_pos h2, hdiv, hmod]
    · rw [if_neg h1]
      by_cases h3 : k < n * dm
      · have h2 : k < (n + 1) * dm := by rw [Nat.add_mul, Nat.one_mul]; omega
        rw [if_pos h3, if_pos h2]
      · have h2 : ¬ k < (n + 1) * dm := by rw [Nat.add_mul, Nat.one_mul]; omega
        rw [if_neg h3, if_neg h2]

/-- The element written for voxel `v`, dimension `i`. -/
theorem nested_loop_written (f : Nat → Nat → ℚ) (dm : Nat) (data : Nat → ℚ) (n v i : Nat)
    (hv : v < n) (hi : i < dm) :
    ((List.range n).foldl (fun data v =>
        (List.range dm).foldl (fun data i => Function.update data (v * dm + i) (f v i)) data)
        data) (v * dm + i) = f v i := by
  have hdm : 0 < dm := by omega
  have hlt : v * dm + i < n * dm := by
    calc v * dm + i < v * dm + dm := by omega
      _ = (v + 1) * dm := by rw [Nat.add_mul, Nat.one_mul]
      _ ≤ n * dm := Nat.mul_le_mul_right dm hv
  have hdiv : (v * dm + i) / dm = v := by
    rw [Nat.mul_comm, Nat.mul_add_div hdm, Nat.div_eq_of_lt hi, Nat.add_zero]
  have hmod : (v * dm + i) % dm = i := by
    rw [Nat.mul_comm, Nat.mul_add_mod, Nat.mod_eq_of_lt hi]
  rw [nested_loop_apply f dm hdm data (v * dm + i) n, if_pos hlt, hdiv, hmod]

/-- C10. After `offset_samples_to_match_cube_a` on a batch of `nsamples`
voxels, element `v * Dimensionality_Max + i` of the output holds
`samples[v][i] + GetDimensionIndexOffset_a(i)` for every voxel `v < nsamples`
and dimension `i < Dimensionality_Max`; `offset_samples_to_match_cube_b` does
the same with `GetDimensionIndexOffset_b(i)`. The offset is a function of `i`
alone. -/
theorem C10_offset_samples (self : DoubleMetadataHandle) (samples : Nat → voxel)
    (nsamples : Nat) (data : Nat → ℚ) (v i : Nat) (hv : v < nsamples)
    (hi : i < Dimensionality_Max) :
    self.offset_samples_to_match_cube_a samples nsamples data (v * Dimensionality_Max + i) =
      samples v i + ((self.m_layout.GetDimensionIndexOffset_a (i : Int) : Int) : ℚ) ∧
    self.offset_samples_to_match_cube_b samples nsamples data (v * Dimensionality_Max + i) =
      samples v i + ((self.m_layout.GetDimensionIndexOffset_b (i : Int) : Int) : ℚ) :=
  ⟨nested_loop_written
      (fun v i => samples v i + ((self.m_layout.GetDimensionIndexOffset_a (i : Int) : Int) : ℚ))
      Dimensionality_Max data nsamples v i hv hi,
    nested_loop_written
      (fun v i => samples v i + ((self.m_layout.GetDimensionIndexOffset_b (i : Int) : Int) : ℚ))
      Dimensionality_Max data nsamples v i hv hi⟩

/-- C10 on a batch of two voxels, at voxel 1 and dimension 0. -/
theorem C10_offset_samples_witness :
    test_double_handle.offset_samples_to_match_cube_a test_voxels 2 (fun _ => 0)
        (1 * Dimensionality_Max + 0) =
      test_voxels 1 0 + ((test_double_handle.m_layout.GetDimensionIndexOffset_a ((0 : Nat) : Int)
        : Int) : ℚ) ∧
    test_double_handle.offset_samples_to_match_cube_b test_voxels 2 (fun _ => 0)
        (1 * Dimensionality_Max + 0) =
      test_voxels 1 0 + ((test_double_handle.m_layout.GetDimensionIndexOffset_b ((0 : Nat) : Int)
        : Int) : ℚ) :=
  C10_offset_samples test_double_handle test_voxels 2 (fun _ => 0) 1 0 (by decide) (by decide)

/-! ### Provenance strings -/

/-- The operator string is the symbol between two blanks. -/
theorem operator_string_eq (self : DoubleMetadataHandle) :
    self.operator_string = " " ++ operator_symbol self.m_binary_symbol ++ " " := by
  unfold DoubleMetadataHandle.operator_string
  cases self.m_binary_symbol <;> rfl

/-- The members that the constructor of the double handle stores. -/
theorem DoubleMetadataHandle.construct_members (ext : Externals)
    (layout_a layout_b : VolumeDataLayout) (metadata_a metadata_b : SingleMetadataHandle)
    (binary_symbol : binary_operator) (handle : DoubleMetadataHandle)
    (h : DoubleMetadataHandle.construct ext layout_a layout_b metadata_a metadata_b
      binary_symbol = .ok handle) :
    handle.m_metadata_a = metadata_a ∧ handle.m_metadata_b = metadata_b ∧
      handle.m_binary_symbol = binary_symbol := by
  unfold DoubleMetadataHandle.construct at h
  simp only [bind, Except.bind] at h
  repeat' split at h
  all_goals first
    | (cases h; done)
    | (cases h; exact ⟨rfl, rfl, rfl⟩)

/-- C11. On a double handle built from the handles A and B with the operator
`op`, `input_filename()` is A's file name, a blank, the symbol of `op`, a
blank and B's file name, and `import_time_stamp()` is the same concatenation
of the two time stamps; the symbol is "?" for none, "+" for add, "-" for
subtract, "*" for multiply, "/" for divide and "XX" for any other value. -/
theorem C11_provenance_strings (ext : Externals) (layout_a layout_b : VolumeDataLayout)
    (metadata_a metadata_b : SingleMetadataHandle) (binary_symbol : binary_operator)
    (handle : DoubleMetadataHandle)
    (h : DoubleMetadataHandle.construct ext layout_a layout_b metadata_a metadata_b
      binary_symbol = .ok handle) :
    handle.input_filename =
      metadata_a.input_filename ++ " " ++ operator_symbol binary_symbol ++ " " ++
        metadata_b.input_filename ∧
    handle.import_time_stamp =
      metadata_a.import_time_stamp ++ " " ++ operator_symbol binary_symbol ++ " " ++
        metadata_b.import_time_stamp := by
  obtain ⟨ha, hb, hop⟩ :=
    DoubleMetadataHandle.construct_members ext _ _ _ _ _ _ h
  constructor <;>
    simp only [DoubleMetadataHandle.input_filename, DoubleMetadataHandle.import_time_stamp,
      operator_string_eq, ha, hb, hop, String.append_assoc]

/-- C11, the example of the claim: with the operator add, A = "a.vds" and
B = "b.vds" the file name is "a.vds + b.vds". -/
theorem C11_provenance_strings_witness :
    ∃ handle,
      DoubleMetadataHandle.construct test_externals (survey_file "a.vds" "2024-01-01")
        (survey_file "b.vds" "2024-02-02") (survey_file_handle "a.vds" "2024-01-01")
        (survey_file_handle "b.vds" "2024-02-02") binary_operator.ADDITION = .ok handle ∧
      handle.input_filename = "a.vds + b.vds" ∧
      handle.import_time_stamp = "2024-01-01 + 2024-02-02" := by
  have hri : make_double_cube_axis test_externals (survey_file_handle "a.vds" "2024-01-01")
      (survey_file_handle "b.vds" "2024-02-02") 0 = .ok ⟨0, 100, 101, "Inline", "unitless", 0⟩ :=
    make_double_cube_axis_eval test_externals _ _ 0 ⟨0, 100, 101, "Inline", "unitless", 0⟩
      ⟨0, 100, 101, "Inline", "unitless", 0⟩ 1 101 0 100 rfl rfl ⟨rfl, rfl, rfl⟩
      (by norm_num [Axis.stepsize]) (by decide) (by norm_num) (by norm_num) (by norm_num)
  have hrx := survey_crossline_reconciled test_externals
    (survey_file_handle "a.vds" "2024-01-01") (survey_file_handle "b.vds" "2024-02-02") rfl rfl
  have hrs := survey_sample_reconciled test_externals
    (survey_file_handle "a.vds" "2024-01-01") (survey_file_handle "b.vds" "2024-02-02") rfl rfl
  have hc := DoubleMetadataHandle.construct_reconciled test_externals
    (survey_file "a.vds" "2024-01-01") (survey_file "b.vds" "2024-02-02")
    (survey_file_handle "a.vds" "2024-01-01") (survey_file_handle "b.vds" "2024-02-02")
    binary_operator.ADDITION
    ⟨3, (survey 0 100 101).GetDimensionName, fun _ => 0, fun _ => 0⟩
    0 1 2 _ _ _ rfl rfl hri rfl hrx rfl hrs
  exact ⟨_, hc, C11_provenance_strings test_externals _ _ _ _ _ _ hc⟩

/-! ### The name lookup, both directions -/

/-- The result of a lookup over the dimensions `0 .. n - 1` with names `f`:
it returns exactly the smallest index with an accepted name, and throws the
not-found error exactly when no index has one. -/
theorem get_dimension_loop_spec (f : Int → String) (names : List String) (n : Int)
    (r : Except Exception Int)
    (hr : r = match get_dimension_loop f names 0 n.toNat with
      | some i => .ok i
      | none => .error (axis_not_found names)) :
    (∀ d : Int, r = .ok d ↔
      (0 ≤ d ∧ d < n ∧ f d ∈ names ∧ ∀ k : Int, 0 ≤ k → k < d → f k ∉ names)) ∧
    (r = .error (axis_not_found names) ↔ ∀ k : Int, 0 ≤ k → k < n → f k ∉ names) := by
  cases hl : get_dimension_loop f names 0 n.toNat with
  | none =>
    rw [hl] at hr
    have hnone := get_dimension_loop_none f names _ _ hl
    have hall : ∀ k : Int, 0 ≤ k → k < n → f k ∉ names := by
      intro k hk0 hkn
      have := hnone k.toNat (by omega) (by omega)
      rwa [Int.toNat_of_nonneg hk0] at this
    subst hr
    refine ⟨?_, ?_⟩
    · intro d
      constructor
      · intro h; cases h
      · rintro ⟨h0, hn, hmem, -⟩
        exact absurd hmem (hall d h0 hn)
    · exact ⟨fun _ => hall, fun _ => rfl⟩
  | some i =>
    rw [hl] at hr
    obtain ⟨j, hij, -, hjn, hj, hfirst⟩ := get_dimension_loop_some f names _ _ _ hl
    subst hij
    subst hr
    have hfirst' : ∀ k : Int, 0 ≤ k → k < (j : Int) → f k ∉ names := by
      intro k hk0 hkj
      have := hfirst k.toNat (by omega) (by omega)
      rwa [Int.toNat_of_nonneg hk0] at this
    refine ⟨?_, ?_⟩
    · intro d
      constructor
      · intro h
        have hd : (j : Int) = d := by injection h
        subst hd
        exact ⟨by omega, by omega, hj, hfirst'⟩
      · rintro ⟨h0, hn, hmem, hmin⟩
        have h1 : ¬ d < (j : Int) := fun hlt => hfirst' d h0 hlt hmem
        have h2 : ¬ (j : Int) < d := fun hlt => hmin j (by omega) hlt hj
        have : (j : Int) = d := by omega
        rw [this]
    · constructor
      · intro h; cases h
      · intro hall
        exact absurd hj (hall j (by omega) (by omega))

/-- C12. For every layout and every list of candidate names, `get_dimension`
returns `d` exactly when `d` is the smallest index in `0 .. dimensionality - 1`
whose dimension name is in the list, and it throws the not-found runtime
error exactly when no dimension name in that range is in the list. This holds
for `SingleMetadataHandle::get_dimension` and for
`DoubleMetadataHandle::get_dimension`. -/
theorem C12_get_dimension_first_match (layout : VolumeDataLayout)
    (m_layout : DoubleVolumeDataLayout) (names : List String) :
    ((∀ d : Int, SingleMetadataHandle.get_dimension layout names = .ok d ↔
        (0 ≤ d ∧ d < layout.GetDimensionality ∧ layout.GetDimensionName d ∈ names ∧
          ∀ k : Int, 0 ≤ k → k < d → layout.GetDimensionName k ∉ names)) ∧
      (SingleMetadataHandle.get_dimension layout names = .error (axis_not_found names) ↔
        ∀ k : Int, 0 ≤ k → k < layout.GetDimensionality →
          layout.GetDimensionName k ∉ names)) ∧
    ((∀ d : Int, DoubleMetadataHandle.get_dimension m_layout names = .ok d ↔
        (0 ≤ d ∧ d < m_layout.GetDimensionality ∧ m_layout.GetDimensionName d ∈ names ∧
          ∀ k : Int, 0 ≤ k → k < d → m_layout.GetDimensionName k ∉ names)) ∧
      (DoubleMetadataHandle.get_dimension m_layout names = .error (axis_not_found names) ↔
        ∀ k : Int, 0 ≤ k → k < m_layout.GetDimensionality →
          m_layout.GetDimensionName k ∉ names)) :=
  ⟨get_dimension_loop_spec layout.GetDimensionName names layout.GetDimensionality _ rfl,
    get_dimension_loop_spec m_layout.GetDimensionName names m_layout.GetDimensionality _ rfl⟩

/-- C12 on a layout with the dimensions Inline, Crossline, Depth: the sample
aliases resolve to index 2, and "Trace" is not found. -/
theorem C12_get_dimension_first_match_witness :
    SingleMetadataHandle.get_dimension (survey_depth 0 100 101)
        [KnownAxisNames.Sample, KnownAxisNames.Depth, KnownAxisNames.Time] = .ok 2 ∧
    SingleMetadataHandle.get_dimension (survey_depth 0 100 101) ["Trace"] =
      .error (axis_not_found ["Trace"]) := by
  have h := C12_get_dimension_first_match (survey_depth 0 100 101) test_double_layout
  refine ⟨((h _).1.1 2).2 ⟨by decide, by decide, by decide, ?_⟩, (h _).1.2.2 ?_⟩
  · intro k hk0 hk2
    have hk : k = 0 ∨ k = 1 := by omega
    rcases hk with rfl | rfl <;> decide
  · intro k hk0 hk3
    have hk : k = 0 ∨ k = 1 ∨ k = 2 := by
      have : k < 3 := hk3
      omega
    rcases hk with rfl | rfl | rfl <;> decide

/-! ### The axis queries on a constructed handle -/

/-- C13. On a constructed handle `get_axis(direction)` returns an axis for each
of the three directions, the layout has three dimensions, and
`get_axis(dimension)` returns an axis, the one with that index, for each of
the dimension indices 0, 1 and 2: neither query reaches its "Unhandled"
exception. -/
theorem C13_axis_queries_succeed (layout : VolumeDataLayout) (handle : SingleMetadataHandle)
    (h : SingleMetadataHandle.construct layout = .ok handle) :
    (∀ direction : Direction, ∃ axis, handle.get_axis direction = .ok axis) ∧
    layout.GetDimensionality = 3 ∧
    (∀ dimension : Int, 0 ≤ dimension → dimension < 3 →
      ∃ axis, handle.get_axis_int dimension = .ok axis ∧ axis.dimension = dimension) := by
  obtain ⟨di, dx, ds, hi, hx, hs, h3, hh, -, -, -⟩ :=
    SingleMetadataHandle.construct_ok layout handle h
  obtain ⟨hi0, hi3, hni, -⟩ := SingleMetadataHandle.get_dimension_ok _ _ _ hi
  obtain ⟨hx0, hx3, hnx, -⟩ := SingleMetadataHandle.get_dimension_ok _ _ _ hx
  obtain ⟨hs0, hs3, hns, -⟩ := SingleMetadataHandle.get_dimension_ok _ _ _ hs
  have hix : di ≠ dx := by
    intro he; subst he
    simp only [List.mem_singleton] at hni hnx
    rw [hni] at hnx
    exact absurd hnx (by decide)
  have his : di ≠ ds := by
    intro he; subst he
    simp only [List.mem_singleton, List.mem_cons, List.not_mem_nil, or_false] at hni hns
    rw [hni] at hns
    exact absurd hns (by decide)
  have hxs : dx ≠ ds := by
    intro he; subst he
    simp only [List.mem_singleton, List.mem_cons, List.not_mem_nil, or_false] at hnx hns
    rw [hnx] at hns
    exact absurd hns (by decide)
  subst hh
  refine ⟨?_, h3, ?_⟩
  · intro direction
    cases direction
    · exact ⟨_, rfl⟩
    · exact ⟨_, rfl⟩
    · exact ⟨_, rfl⟩
  · intro dimension h0 hlt
    rw [h3] at hi3 hx3 hs3
    have hcover : dimension = di ∨ dimension = dx ∨ dimension = ds := by omega
    rcases hcover with rfl | rfl | rfl
    · exact ⟨make_single_cube_axis layout dimension,
        by simp [SingleMetadataHandle.get_axis_int, SingleMetadataHandle.iline,
          make_single_cube_axis], rfl⟩
    · exact ⟨make_single_cube_axis layout dimension,
        by simp [SingleMetadataHandle.get_axis_int, SingleMetadataHandle.iline,
          SingleMetadataHandle.xline, make_single_cube_axis, hix], rfl⟩
    · exact ⟨make_single_cube_axis layout dimension,
        by simp [SingleMetadataHandle.get_axis_int, SingleMetadataHandle.iline,
          SingleMetadataHandle.xline, SingleMetadataHandle.sample, make_single_cube_axis, his,
          hxs], rfl⟩

/-- C13 on the handle of a layout with the dimensions Inline, Crossline, Depth. -/
theorem C13_axis_queries_succeed_witness :
    (∀ direction : Direction, ∃ axis, (survey_depth_handle 0 100 101).get_axis direction = .ok axis) ∧
    (survey_depth 0 100 101).GetDimensionality = 3 ∧
    (∀ dimension : Int, 0 ≤ dimension → dimension < 3 →
      ∃ axis, (survey_depth_handle 0 100 101).get_axis_int dimension = .ok axis ∧
        axis.dimension = dimension) :=
  C13_axis_queries_succeed (survey_depth 0 100 101) (survey_depth_handle 0 100 101) rfl

/-! ### The three checks, in order -/

/-- The exception of `make_double_cube_axis` when the names differ. -/
theorem make_double_cube_axis_name_mismatch (ext : Externals)
    (metadata_a metadata_b : SingleMetadataHandle) (dimension : Int) (axis_a axis_b : Axis)
    (ha : metadata_a.get_axis_int dimension = .ok axis_a)
    (hb : metadata_b.get_axis_int dimension = .ok axis_b)
    (hname : axis_a.name ≠ axis_b.name) :
    make_double_cube_axis ext metadata_a metadata_b dimension =
      .error (.bad_request ("Dimension name mismatch for dimension " ++ toString dimension ++
        ": " ++ (axis_a.name ++ " versus " ++ axis_b.name))) := by
  simp only [make_double_cube_axis, ha, hb, hname, bind, Except.bind, throw, throwThe,
    MonadExceptOf.throw, ne_eq, not_false_eq_true, if_true]

/-- The exception of `make_double_cube_axis` when the names agree and the
units differ. -/
theorem make_double_cube_axis_unit_mismatch (ext : Externals)
    (metadata_a metadata_b : SingleMetadataHandle) (dimension : Int) (axis_a axis_b : Axis)
    (ha : metadata_a.get_axis_int dimension = .ok axis_a)
    (hb : metadata_b.get_axis_int dimension = .ok axis_b)
    (hname : axis_a.name = axis_b.name) (hunit : axis_a.unit ≠ axis_b.unit) :
    make_double_cube_axis ext metadata_a metadata_b dimension =
      .error (.bad_request ("Dimension unit mismatch for axis " ++ axis_a.name ++ ": " ++
        (axis_a.unit ++ " versus " ++ axis_b.unit))) := by
  simp only [make_double_cube_axis, ha, hb, hname, hunit, bind, Except.bind, throw, throwThe,
    MonadExceptOf.throw, pure, Except.pure, ne_eq, not_true_eq_false, not_false_eq_true,
    if_true, if_false]

/-- The exception of `make_double_cube_axis` when names and units agree and
the step sizes differ. -/
theorem make_double_cube_axis_stepsize_mismatch (ext : Externals)
    (metadata_a metadata_b : SingleMetadataHandle) (dimension : Int) (axis_a axis_b : Axis)
    (ha : metadata_a.get_axis_int dimension = .ok axis_a)
    (hb : metadata_b.get_axis_int dimension = .ok axis_b)
    (hname : axis_a.name = axis_b.name) (hunit : axis_a.unit = axis_b.unit)
    (hstep : axis_a.stepsize ≠ axis_b.stepsize) :
    make_double_cube_axis ext metadata_a metadata_b dimension =
      .error (.bad_request ("Stepsize mismatch in axis " ++ axis_a.name ++ ": " ++
        (ext.to_string_with_precision axis_a.stepsize ++ " versus " ++
          ext.to_string_with_precision axis_b.stepsize))) := by
  simp only [make_double_cube_axis, ha, hb, hname, hunit, hstep, bind, Except.bind, throw,
    throwThe, MonadExceptOf.throw, pure, Except.pure, ne_eq, not_true_eq_false,
    not_false_eq_true, if_true, if_false]

/-- A message that starts with "Dimension" does not start with "Stepsize". -/
theorem dimension_ne_stepsize (s t : String) : "Dimension" ++ s ≠ "Stepsize" ++ t := by
  intro h
  have := congrArg String.data h
  rw [String.data_append, String.data_append] at this
  exact absurd (List.head_eq_of_cons_eq this) (by decide)

/-- Neither the name-mismatch nor the unit-mismatch message starts with
"Stepsize". -/
theorem mismatch_message_ne_stepsize (s t : String) :
    "Dimension name mismatch for dimension " ++ s ≠ "Stepsize" ++ t ∧
      "Dimension unit mismatch for axis " ++ s ≠ "Stepsize" ++ t := by
  have h1 : "Dimension name mismatch for dimension " ++ s =
      "Dimension" ++ (" name mismatch for dimension " ++ s) := by
    rw [← String.append_assoc]; rfl
  have h2 : "Dimension unit mismatch for axis " ++ s =
      "Dimension" ++ (" unit mismatch for axis " ++ s) := by
    rw [← String.append_assoc]; rfl
  rw [h1, h2]
  exact ⟨dimension_ne_stepsize _ _, dimension_ne_stepsize _ _⟩

/-- C15. The checks run in the order name, unit, step size, and the first that
fails decides the exception: if the names differ it is the dimension-name
mismatch, whatever the units and step sizes; if the names agree and the units
differ it is the unit mismatch, whatever the step sizes; if names and units
agree and the step sizes differ it is the stepsize mismatch; and a message
starting with "Stepsize" is thrown only when names and units agree and the
step sizes differ. -/
theorem C15_first_failing_check (ext : Externals) (layout_a layout_b : VolumeDataLayout)
    (metadata_a metadata_b : SingleMetadataHandle) (dimension : Int) (axis_a axis_b : Axis)
    (_hva : SingleMetadataHandle.construct layout_a = .ok metadata_a)
    (_hvb : SingleMetadataHandle.construct layout_b = .ok metadata_b)
    (ha : metadata_a.get_axis_int dimension = .ok axis_a)
    (hb : metadata_b.get_axis_int dimension = .ok axis_b) :
    (axis_a.name ≠ axis_b.name →
      make_double_cube_axis ext metadata_a metadata_b dimension =
        .error (.bad_request ("Dimension name mismatch for dimension " ++ toString dimension ++
          ": " ++ (axis_a.name ++ " versus " ++ axis_b.name)))) ∧
    (axis_a.name = axis_b.name → axis_a.unit ≠ axis_b.unit →
      make_double_cube_axis ext metadata_a metadata_b dimension =
        .error (.bad_request ("Dimension unit mismatch for axis " ++ axis_a.name ++ ": " ++
          (axis_a.unit ++ " versus " ++ axis_b.unit)))) ∧
    (axis_a.name = axis_b.name → axis_a.unit = axis_b.unit →
      axis_a.stepsize ≠ axis_b.stepsize →
      make_double_cube_axis ext metadata_a metadata_b dimension =
        .error (.bad_request ("Stepsize mismatch in axis " ++ axis_a.name ++ ": " ++
          (ext.to_string_with_precision axis_a.stepsize ++ " versus " ++
            ext.to_string_with_precision axis_b.stepsize)))) ∧
    (∀ rest : String,
      make_double_cube_axis ext metadata_a metadata_b dimension =
        .error (.bad_request ("Stepsize" ++ rest)) →
      axis_a.name = axis_b.name ∧ axis_a.unit = axis_b.unit ∧
        axis_a.stepsize ≠ axis_b.stepsize) := by
  refine ⟨make_double_cube_axis_name_mismatch ext _ _ _ _ _ ha hb,
    make_double_cube_axis_unit_mismatch ext _ _ _ _ _ ha hb,
    make_double_cube_axis_stepsize_mismatch ext _ _ _ _ _ ha hb, ?_⟩
  intro rest hrest
  by_cases hname : axis_a.name = axis_b.name
  · by_cases hunit : axis_a.unit = axis_b.unit
    · by_cases hstep : axis_a.stepsize = axis_b.stepsize
      · rw [make_double_cube_axis_ok ext _ _ _ _ _ ha hb hname hunit hstep] at hrest
        cases hrest
      · exact ⟨hname, hunit, hstep⟩
    · rw [make_double_cube_axis_unit_mismatch ext _ _ _ _ _ ha hb hname hunit] at hrest
      have hmsg := Exception.bad_request.inj (Except.error.inj hrest)
      rw [String.append_assoc, String.append_assoc] at hmsg
      exact absurd hmsg (mismatch_message_ne_stepsize _ _).2
  · rw [make_double_cube_axis_name_mismatch ext _ _ _ _ _ ha hb hname] at hrest
    have hmsg := Exception.bad_request.inj (Except.error.inj hrest)
    rw [String.append_assoc, String.append_assoc] at hmsg
    exact absurd hmsg (mismatch_message_ne_stepsize _ _).1

/-- C15 on third axes that differ in name ("Sample", "Depth") and in unit
("ms", "m"): the name mismatch is reported. -/
theorem C15_first_failing_check_witness :
    make_double_cube_axis test_externals (survey_handle 0 100 101)
        (survey_depth_handle 0 100 101) 2 =
      .error (.bad_request "Dimension name mismatch for dimension 2: Sample versus Depth") :=
  (C15_first_failing_check test_externals (survey 0 100 101) (survey_depth 0 100 101)
    (survey_handle 0 100 101) (survey_depth_handle 0 100 101) 2
    ⟨0, 40, 11, "Sample", "ms", 2⟩ ⟨0, 40, 11, "Depth", "m", 2⟩ rfl rfl rfl rfl).1 (by decide)

/-- C14, as amended. The step-size check compares the two step sizes exactly:
two axes of constructed handles with equal name and unit are reconciled when
their step sizes are equal, and are rejected with the stepsize-mismatch
`bad_request` when they are not, however the two step sizes are formatted.
The fixed-precision formatting only renders the two values in the message. -/
theorem C14_stepsize_compared_exactly (ext : Externals) (layout_a layout_b : VolumeDataLayout)
    (metadata_a metadata_b : SingleMetadataHandle) (dimension : Int) (axis_a axis_b : Axis)
    (_hva : SingleMetadataHandle.construct layout_a = .ok metadata_a)
    (_hvb : SingleMetadataHandle.construct layout_b = .ok metadata_b)
    (ha : metadata_a.get_axis_int dimension = .ok axis_a)
    (hb : metadata_b.get_axis_int dimension = .ok axis_b)
    (hname : axis_a.name = axis_b.name) (hunit : axis_a.unit = axis_b.unit) :
    (axis_a.stepsize = axis_b.stepsize →
      ∃ r, make_double_cube_axis ext metadata_a metadata_b dimension = .ok r) ∧
    (axis_a.stepsize ≠ axis_b.stepsize →
      make_double_cube_axis ext metadata_a metadata_b dimension =
        .error (.bad_request ("Stepsize mismatch in axis " ++ axis_a.name ++ ": " ++
          (ext.to_string_with_precision axis_a.stepsize ++ " versus " ++
            ext.to_string_with_precision axis_b.stepsize)))) :=
  ⟨fun hstep => ⟨_, make_double_cube_axis_ok ext _ _ _ _ _ ha hb hname hunit hstep⟩,
    make_double_cube_axis_stepsize_mismatch ext _ _ _ _ _ ha hb hname hunit⟩

/-- C14, as amended, on inline axes of step 1 and step 2. -/
theorem C14_stepsize_compared_exactly_witness :
    make_double_cube_axis test_externals (survey_handle 0 100 101) (survey_handle 0 100 51) 0 =
      .error (.bad_request ("Stepsize mismatch in axis " ++ "Inline" ++ ": " ++
        (test_externals.to_string_with_precision
            (⟨0, 100, 101, "Inline", "unitless", 0⟩ : Axis).stepsize ++ " versus " ++
          test_externals.to_string_with_precision
            (⟨0, 100, 51, "Inline", "unitless", 0⟩ : Axis).stepsize))) :=
  (C14_stepsize_compared_exactly test_externals (survey 0 100 101) (survey 0 100 51)
    (survey_handle 0 100 101) (survey_handle 0 100 51) 0
    ⟨0, 100, 101, "Inline", "unitless", 0⟩ ⟨0, 100, 51, "Inline", "unitless", 0⟩
    rfl rfl rfl rfl rfl rfl).2 (by norm_num [Axis.stepsize])

/-- Rendering of the step 1 at six decimals. -/
theorem fixed_precision_string_one : fixed_precision_string 1 = "1.000000" := by
  have h : (⌊(1 : ℚ) * 1000000 + 1 / 2⌋ : Int) = 1000000 := by
    rw [Int.floor_eq_iff]; norm_num
  simp only [fixed_precision_string, h]
  rfl

/-- Rendering of the step `1 + 2^-23`, the float next above 1, at six decimals. -/
theorem fixed_precision_string_next : fixed_precision_string (8388609 / 8388608) = "1.000000" := by
  have h : (⌊(8388609 / 8388608 : ℚ) * 1000000 + 1 / 2⌋ : Int) = 1000000 := by
    rw [Int.floor_eq_iff]; norm_num
  simp only [fixed_precision_string, h]
  rfl

/-- C14 fails as stated: inline axes [0,1] and [0, 1 + 2^-23] of 2 samples
each have equal name and unit and the step sizes 1 and 1 + 2^-23, which both
render as "1.000000" at six decimals, and reconciliation throws the
stepsize-mismatch `bad_request`. -/
theorem C14_counterexample :
    SingleMetadataHandle.construct (survey 0 1 2) = .ok (survey_handle 0 1 2) ∧
    SingleMetadataHandle.construct (survey 0 (8388609 / 8388608) 2) =
      .ok (survey_handle 0 (8388609 / 8388608) 2) ∧
    (survey_handle 0 1 2).m_iline.name = (survey_handle 0 (8388609 / 8388608) 2).m_iline.name ∧
    (survey_handle 0 1 2).m_iline.unit = (survey_handle 0 (8388609 / 8388608) 2).m_iline.unit ∧
    (survey_handle 0 1 2).m_iline.stepsize = 1 ∧
    (survey_handle 0 (8388609 / 8388608) 2).m_iline.stepsize = 8388609 / 8388608 ∧
    test_externals_fixed.to_string_with_precision (survey_handle 0 1 2).m_iline.stepsize =
      test_externals_fixed.to_string_with_precision
        (survey_handle 0 (8388609 / 8388608) 2).m_iline.stepsize ∧
    make_double_cube_axis test_externals_fixed (survey_handle 0 1 2)
        (survey_handle 0 (8388609 / 8388608) 2) 0 =
      .error (.bad_request "Stepsize mismatch in axis Inline: 1.000000 versus 1.000000") := by
  have hsa : (⟨0, 1, 2, "Inline", "unitless", 0⟩ : Axis).stepsize = 1 := by
    norm_num [Axis.stepsize]
  have hsb : (⟨0, 8388609 / 8388608, 2, "Inline", "unitless", 0⟩ : Axis).stepsize =
      8388609 / 8388608 := by
    norm_num [Axis.stepsize]
  have hfa : test_externals_fixed.to_string_with_precision
      (⟨0, 1, 2, "Inline", "unitless", 0⟩ : Axis).stepsize = "1.000000" := by
    rw [hsa]; exact fixed_precision_string_one
  have hfb : test_externals_fixed.to_string_with_precision
      (⟨0, 8388609 / 8388608, 2, "Inline", "unitless", 0⟩ : Axis).stepsize = "1.000000" := by
    rw [hsb]; exact fixed_precision_string_next
  refine ⟨rfl, rfl, rfl, rfl, hsa, hsb, hfa.trans hfb.symm, ?_⟩
  rw [make_double_cube_axis_stepsize_mismatch test_externals_fixed (survey_handle 0 1 2)
    (survey_handle 0 (8388609 / 8388608) 2) 0 ⟨0, 1, 2, "Inline", "unitless", 0⟩
    ⟨0, 8388609 / 8388608, 2, "Inline", "unitless", 0⟩ rfl rfl rfl rfl
    (by rw [hsa, hsb]; norm_num), hfa, hfb]
  rfl

/-! ### Integer grids -/

/-- Truncation of a value of at most `n`, `n` not negative, is at most `n`. -/
theorem float_to_int_le (x : ℚ) (n : Int) (hn : 0 ≤ n) (h : x ≤ (n : ℚ)) :
    float_to_int x ≤ n := by
  unfold float_to_int
  split_ifs with h0
  · have : ((⌊x⌋ : Int) : ℚ) ≤ (n : ℚ) := le_trans (Int.floor_le x) h
    exact_mod_cast this
  · have hx : x ≤ ((0 : Int) : ℚ) := by push_cast; linarith
    have := Int.ceil_le.mpr hx
    omega

/-- The extent of an axis of at least two samples is its step times the number
of intervals. -/
theorem Axis.extent_eq (a : Axis) (hn : 2 ≤ a.nsamples) :
    a.max - a.min = a.stepsize * ((a.nsamples : ℚ) - 1) := by
  have hne : ((a.nsamples : ℚ) - 1) ≠ 0 := by
    have : (2 : ℚ) ≤ (a.nsamples : ℚ) := by exact_mod_cast hn
    linarith
  unfold Axis.stepsize
  push_cast
  field_simp

/-- The axis that `get_axis(int)` returns carries the requested index. -/
theorem SingleMetadataHandle.get_axis_int_dimension (self : SingleMetadataHandle)
    (dimension : Int) (axis : Axis) (h : self.get_axis_int dimension = .ok axis) :
    axis.dimension = dimension := by
  unfold SingleMetadataHandle.get_axis_int at h
  split_ifs at h with h1 h2 h3
  · cases h; exact h1
  · cases h; exact h2
  · cases h; exact h3

/-- C16. For two axes with equal name, unit and step size, each of at least 2
samples, whose common step size is a positive integer, `make_double_cube_axis`
returns an axis with no more samples than either of the two. (For an axis of
at least 2 samples `max = min + (nsamples - 1) * stepsize` holds by the
definition of the step size.) -/
theorem C16_intersection_not_larger (ext : Externals)
    (metadata_a metadata_b : SingleMetadataHandle) (dimension : Int) (axis_a axis_b : Axis)
    (k : Int)
    (ha : metadata_a.get_axis_int dimension = .ok axis_a)
    (hb : metadata_b.get_axis_int dimension = .ok axis_b)
    (hc : axis_a.reconcilable axis_b)
    (hna : 2 ≤ axis_a.nsamples) (hnb : 2 ≤ axis_b.nsamples)
    (hk : 0 < k) (hs : axis_a.stepsize = (k : ℚ)) :
    ∃ r, make_double_cube_axis ext metadata_a metadata_b dimension = .ok r ∧
      r.nsamples ≤ Min.min axis_a.nsamples axis_b.nsamples := by
  refine ⟨_, make_double_cube_axis_ok ext _ _ _ _ _ ha hb hc.1 hc.2.1 hc.2.2, ?_⟩
  have hf : float_to_int axis_a.stepsize = k := by rw [hs]; exact float_to_int_intCast k
  have hk0 : k ≠ 0 := by omega
  have hkq : (0 : ℚ) < (k : ℚ) := by exact_mod_cast hk
  have hea := axis_a.extent_eq hna
  have heb := axis_b.extent_eq hnb
  rw [← hc.2.2, hs] at heb
  rw [hs] at hea
  have hlo_a : axis_a.min ≤ Max.max axis_a.min axis_b.min := le_max_left _ _
  have hlo_b : axis_b.min ≤ Max.max axis_a.min axis_b.min := le_max_right _ _
  have hhi_a : Min.min axis_a.max axis_b.max ≤ axis_a.max := min_le_left _ _
  have hhi_b : Min.min axis_a.max axis_b.max ≤ axis_b.max := min_le_right _ _
  have hqa : 1 + (Min.min axis_a.max axis_b.max - Max.max axis_a.min axis_b.min) / (k : ℚ) ≤
      (axis_a.nsamples : ℚ) := by
    have : (Min.min axis_a.max axis_b.max - Max.max axis_a.min axis_b.min) / (k : ℚ) ≤
        (axis_a.nsamples : ℚ) - 1 := by
      rw [div_le_iff₀ hkq]
      nlinarith
    linarith
  have hqb : 1 + (Min.min axis_a.max axis_b.max - Max.max axis_a.min axis_b.min) / (k : ℚ) ≤
      (axis_b.nsamples : ℚ) := by
    have : (Min.min axis_a.max axis_b.max - Max.max axis_a.min axis_b.min) / (k : ℚ) ≤
        (axis_b.nsamples : ℚ) - 1 := by
      rw [div_le_iff₀ hkq]
      nlinarith
    linarith
  simp only [intersection_nsamples, hf, hk0, if_false]
  exact le_min (float_to_int_le _ _ (by omega) hqa) (float_to_int_le _ _ (by omega) hqb)

/-- C16 on inline axes [0,100] and [50,150] of 101 samples each. -/
theorem C16_intersection_not_larger_witness :
    ∃ r, make_double_cube_axis test_externals (survey_handle 0 100 101)
        (survey_handle 50 150 101) 0 = .ok r ∧
      r.nsamples ≤ Min.min (101 : Int) 101 :=
  C16_intersection_not_larger test_externals (survey_handle 0 100 101)
    (survey_handle 50 150 101) 0 ⟨0, 100, 101, "Inline", "unitless", 0⟩
    ⟨50, 150, 101, "Inline", "unitless", 0⟩ 1 rfl rfl
    ⟨rfl, rfl, by norm_num [Axis.stepsize]⟩ (by decide) (by decide) (by decide)
    (by norm_num [Axis.stepsize])

/-- C17. For two axes with equal name, unit and step size, each of at least 2
samples, whose common step size `s` is a positive integer, whose origins
differ by an integer multiple of `s` and whose overlap spans at least one
step (it holds at least two grid points), `make_double_cube_axis` returns an
axis of at least 2 samples whose derived step size
`(max - min) / (nsamples - 1)` is `s`. -/
theorem C17_spacing_preserved (ext : Externals)
    (metadata_a metadata_b : SingleMetadataHandle) (dimension : Int) (axis_a axis_b : Axis)
    (k m : Int)
    (ha : metadata_a.get_axis_int dimension = .ok axis_a)
    (hb : metadata_b.get_axis_int dimension = .ok axis_b)
    (hc : axis_a.reconcilable axis_b)
    (hna : 2 ≤ axis_a.nsamples) (hnb : 2 ≤ axis_b.nsamples)
    (hk : 0 < k) (hs : axis_a.stepsize = (k : ℚ))
    (horigin : axis_a.min - axis_b.min = (m : ℚ) * (k : ℚ))
    (hov : (k : ℚ) ≤ Min.min axis_a.max axis_b.max - Max.max axis_a.min axis_b.min) :
    ∃ r, make_double_cube_axis ext metadata_a metadata_b dimension = .ok r ∧
      2 ≤ r.nsamples ∧ r.stepsize = (k : ℚ) := by
  have hk0 : k ≠ 0 := by omega
  have hkq : (0 : ℚ) < (k : ℚ) := by exact_mod_cast hk
  have hea := axis_a.extent_eq hna
  have heb := axis_b.extent_eq hnb
  rw [← hc.2.2, hs] at heb
  rw [hs] at hea
  -- the overlap is a whole number of steps
  have hj : ∃ j : Int, Min.min axis_a.max axis_b.max - Max.max axis_a.min axis_b.min =
      (j : ℚ) * (k : ℚ) := by
    rcases max_choice axis_a.min axis_b.min with h1 | h1 <;>
      rcases min_choice axis_a.max axis_b.max with h2 | h2 <;> rw [h1, h2]
    · exact ⟨axis_a.nsamples - 1, by push_cast; linarith⟩
    · exact ⟨axis_b.nsamples - 1 - m, by push_cast; linarith⟩
    · exact ⟨axis_a.nsamples - 1 + m, by push_cast; linarith⟩
    · exact ⟨axis_b.nsamples - 1, by push_cast; linarith⟩
  obtain ⟨j, hj⟩ := hj
  have hj1 : 1 ≤ j := by
    rw [hj] at hov
    have : (1 : ℚ) ≤ (j : ℚ) := by
      by_contra hlt
      push_neg at hlt
      nlinarith
    exact_mod_cast this
  have hn : 1 + ((j : ℚ) * (k : ℚ) - 0) / (k : ℚ) = ((1 + j : Int) : ℚ) := by
    push_cast
    field_simp
  have hr := make_double_cube_axis_eval ext metadata_a metadata_b dimension axis_a axis_b k
    (1 + j) (Max.max axis_a.min axis_b.min) (Min.min axis_a.max axis_b.max) ha hb hc hs hk0
    rfl rfl (by rw [hj]; simpa using hn)
  refine ⟨_, hr, by simp only; omega, ?_⟩
  simp only [Axis.stepsize]
  rw [hj]
  have hjq : (j : ℚ) ≠ 0 := by
    have : (1 : ℚ) ≤ (j : ℚ) := by exact_mod_cast hj1
    linarith
  push_cast
  field_simp

/-- C17 on inline axes [0,100] and [50,150] of step 2. -/
theorem C17_spacing_preserved_witness :
    ∃ r, make_double_cube_axis test_externals (survey_handle 0 100 51)
        (survey_handle 50 150 51) 0 = .ok r ∧ 2 ≤ r.nsamples ∧ r.stepsize = ((2 : Int) : ℚ) :=
  C17_spacing_preserved test_externals (survey_handle 0 100 51)
    (survey_handle 50 150 51) 0 ⟨0, 100, 51, "Inline", "unitless", 0⟩
    ⟨50, 150, 51, "Inline", "unitless", 0⟩ 2 (-25) rfl rfl
    ⟨rfl, rfl, by norm_num [Axis.stepsize]⟩ (by decide) (by decide) (by decide)
    (by norm_num [Axis.stepsize]) (by norm_num) (by norm_num)

/-- C18. For an axis of at least 2 samples, held by a handle at index
`dimension`, whose step size is a positive integer, reconciling the handle
with itself at `dimension` returns that very axis: same min, max, nsamples,
name, unit and dimension index. -/
theorem C18_self_reconciliation (ext : Externals) (metadata : SingleMetadataHandle)
    (dimension : Int) (axis : Axis) (k : Int)
    (ha : metadata.get_axis_int dimension = .ok axis)
    (hn : 2 ≤ axis.nsamples) (hk : 0 < k) (hs : axis.stepsize = (k : ℚ)) :
    make_double_cube_axis ext metadata metadata dimension = .ok axis := by
  have hk0 : k ≠ 0 := by omega
  have hkq : (k : ℚ) ≠ 0 := by exact_mod_cast hk0
  have he := axis.extent_eq hn
  rw [hs] at he
  have hd := SingleMetadataHandle.get_axis_int_dimension metadata dimension axis ha
  have hr := make_double_cube_axis_eval ext metadata metadata dimension axis axis k
    axis.nsamples axis.min axis.max ha ha ⟨rfl, rfl, rfl⟩ hs hk0 (max_self _) (min_self _)
    (by rw [he]; field_simp)
  rw [hr, ← hd]

/-- C18 on the inline axis [0,100] of step 2. -/
theorem C18_self_reconciliation_witness :
    make_double_cube_axis test_externals (survey_handle 0 100 51) (survey_handle 0 100 51) 0 =
      .ok ⟨0, 100, 51, "Inline", "unitless", 0⟩ :=
  C18_self_reconciliation test_externals (survey_handle 0 100 51) 0
    ⟨0, 100, 51, "Inline", "unitless", 0⟩ 2 rfl (by decide) (by decide)
    (by norm_num [Axis.stepsize])

end Oneseismic
